import Mathlib

/-!
Resources of the OVH provider.

A shallow embedding of `ovh/resource_ovh_me_installation_template.go` and of
the validators, importers and operations of the load-balancer resources
(`resource_ovh_iploadbalancing_tcp_farm.go`, `..._tcp_frontend.go`,
`..._http_farm_server.go`) that the statements are about.

* The API client collaborator (`config.OVHClient`) is an oracle: every call is
  answered from the log of the calls answered so far, so a theorem quantified
  over `Client` holds for every deterministic remote behaviour.
* Each operation threads the resource data and the log explicitly and returns
  the Go `error` as `Option String` (`none` is `nil`); a Go `(T, error)` pair is
  an `Except String T`.
* `url.PathEscape` is modelled byte for byte on the UTF-8 encoding.
-/

namespace Ovh

/-! ## Values held by the resource data -/

/-- A scalar of the schema: `TypeString`, `TypeBool` or `TypeInt`. -/
inductive Scalar where
  | str (s : String)
  | bool (b : Bool)
  | int (i : Int)
deriving DecidableEq, Repr

/-- A value of the schema: a scalar, a list of strings, or a list of blocks
whose fields are scalars (`customization`). -/
inductive Value where
  | str (s : String)
  | bool (b : Bool)
  | int (i : Int)
  | strs (l : List String)
  | blocks (l : List (List (String × Scalar)))
deriving DecidableEq, Repr

/-- The zero value test that `GetOk` applies. -/
def Value.isZero : Value → Bool
  | .str s => s == ""
  | .bool b => b == false
  | .int i => i == 0
  | .strs l => l.isEmpty
  | .blocks l => l.isEmpty

/-- The type that a schema declares for a scalar field. -/
inductive ScalarType where
  | string
  | bool
  | int
deriving DecidableEq, Repr

/-- The type that a schema declares for a field: `TypeString`, `TypeBool`,
`TypeInt`, a `TypeList` or `TypeSet` of strings, or a `TypeList` or `TypeSet`
of a resource with scalar fields. -/
inductive FieldType where
  | string
  | bool
  | int
  | strings
  | blocks (fields : List (String × ScalarType))
deriving DecidableEq, Repr

/-- The `Schema` map of a resource: the declared fields and their types. -/
abbrev Schema := List (String × FieldType)

/-- Whether the field writer of the SDK accepts the scalar for the declared
type: the decoding is strict, a string is not read as an integer. -/
def Scalar.fits : Scalar → ScalarType → Bool
  | .str _, .string => true
  | .bool _, .bool => true
  | .int _, .int => true
  | _, _ => false

/-- Whether the writer accepts a block: every key is declared in the nested
resource and its value fits. -/
def blockFits (fields : List (String × ScalarType)) (block : List (String × Scalar)) : Bool :=
  block.all fun kv =>
    match fields.lookup kv.1 with
    | some t => kv.2.fits t
    | none => false

/-- Whether the writer accepts the value for the declared type. An empty list
fits every list type. -/
def Value.fits : Value → FieldType → Bool
  | .str _, .string => true
  | .bool _, .bool => true
  | .int _, .int => true
  | .strs _, .strings => true
  | .strs l, .blocks _ => l.isEmpty
  | .blocks l, .strings => l.isEmpty
  | .blocks l, .blocks fields => l.all (blockFits fields)
  | _, _ => false

/-- Whether `d.Set(key, value)` succeeds on a resource with this schema: the
key is declared and the value fits its type. -/
def Schema.accepts (schema : Schema) (key : String) (value : Value) : Bool :=
  match schema.lookup key with
  | some t => value.fits t
  | none => false

/-- A Go `map[string]interface{}`: its keys are pairwise distinct. -/
structure GoMap where
  entries : List (String × Value)
  nodup : (entries.map Prod.fst).Nodup

/-- Modelled from the spec: the type `InstallationTemplate` and its method
`ToMap` are declared outside this file; Read flattens the attribute set of the
template into a field-name-to-value mapping. A decoded template is represented
by the mapping that `ToMap` yields for it, which leaves the attribute set
fully general. -/
structure InstallationTemplate where
  ToMap : GoMap

/-- A request body: the JSON object that is sent. -/
abbrev Body := List (String × Value)

/-! ## The client collaborator and its log -/

inductive Method where
  | GET
  | POST
  | PUT
  | DELETE
deriving DecidableEq, Repr

/-- One request handed to the client. -/
structure Call where
  method : Method
  path : String
  body : Option Body
deriving DecidableEq

/-- An error of the client: the HTTP status and the text of `Error()`. -/
structure ClientError where
  code : Nat
  text : String
deriving DecidableEq, Repr

/-- What a successful call decoded into its `out` argument. -/
inductive Reply where
  | nothing
  | names (l : List String)
  | template (t : InstallationTemplate)

/-- A call together with the answer it received. -/
structure Event where
  call : Call
  result : Except ClientError Reply

abbrev Log := List Event

/-- Whether the call of this event returned an error. -/
def Event.failed (e : Event) : Bool :=
  match e.result with
  | .error _ => true
  | .ok _ => false

/-- The method and path of the call of this event. -/
def Event.line (e : Event) : Method × String :=
  (e.call.method, e.call.path)

/-- The client, one oracle per method and type of the `out` argument. Every
oracle sees the log of the calls answered before. -/
structure Client where
  Post : Log → String → Body → Option ClientError
  Put : Log → String → Body → Option ClientError
  Delete : Log → String → Option ClientError
  GetStrings : Log → String → Except ClientError (List String)
  GetTemplate : Log → String → Except ClientError InstallationTemplate

/-- The result of a call whose `out` argument is `nil`. -/
def replyOfError : Option ClientError → Except ClientError Reply
  | some e => .error e
  | none => .ok .nothing

/-- `client.Post(endpoint, opts, nil)`: the answer and the extended log. -/
def Client.post (c : Client) (log : Log) (endpoint : String) (opts : Body) :
    Option ClientError × Log :=
  let r := c.Post log endpoint opts
  (r, log ++ [⟨⟨.POST, endpoint, some opts⟩, replyOfError r⟩])

/-- `client.Put(endpoint, opts, nil)`. -/
def Client.put (c : Client) (log : Log) (endpoint : String) (opts : Body) :
    Option ClientError × Log :=
  let r := c.Put log endpoint opts
  (r, log ++ [⟨⟨.PUT, endpoint, some opts⟩, replyOfError r⟩])

/-- `client.Delete(endpoint, nil)`. -/
def Client.delete (c : Client) (log : Log) (endpoint : String) :
    Option ClientError × Log :=
  let r := c.Delete log endpoint
  (r, log ++ [⟨⟨.DELETE, endpoint, none⟩, replyOfError r⟩])

/-- `client.Get(endpoint, &names)` for a `[]string`. -/
def Client.getStrings (c : Client) (log : Log) (endpoint : String) :
    Except ClientError (List String) × Log :=
  let r := c.GetStrings log endpoint
  (r, log ++ [⟨⟨.GET, endpoint, none⟩, r.map Reply.names⟩])

/-- `client.Get(endpoint, &r)` for an `*InstallationTemplate`; a call that
succeeds has decoded a template. -/
def Client.getTemplate (c : Client) (log : Log) (endpoint : String) :
    Except ClientError InstallationTemplate × Log :=
  let r := c.GetTemplate log endpoint
  (r, log ++ [⟨⟨.GET, endpoint, none⟩, r.map Reply.template⟩])

/-- The `*Config` that every operation receives as `meta`. -/
structure Config where
  OVHClient : Client

/-! ## `url.PathEscape` -/

/-- The UTF-8 encoding of a character, as byte values. -/
def utf8Bytes (c : Char) : List Nat :=
  let n := c.toNat
  if n < 0x80 then [n]
  else if n < 0x800 then [0xC0 + n / 64, 0x80 + n % 64]
  else if n < 0x10000 then [0xE0 + n / 4096, 0x80 + n / 64 % 64, 0x80 + n % 64]
  else [0xF0 + n / 262144, 0x80 + n / 4096 % 64, 0x80 + n / 64 % 64, 0x80 + n % 64]

/-- `shouldEscape(c, encodePathSegment)` of `net/url`: letters, digits and
`-_.~$&+:=@` stay, every other byte is escaped. -/
def shouldEscape (b : Nat) : Bool :=
  if (97 ≤ b ∧ b ≤ 122) ∨ (65 ≤ b ∧ b ≤ 90) ∨ (48 ≤ b ∧ b ≤ 57) then false
  else if b = 45 ∨ b = 95 ∨ b = 46 ∨ b = 126 then false
  else if b = 36 ∨ b = 38 ∨ b = 43 ∨ b = 58 ∨ b = 61 ∨ b = 64 then false
  else true

/-- The digit `upperhex[n]`. -/
def upperhex (n : Nat) : Char :=
  match n with
  | 0 => '0' | 1 => '1' | 2 => '2' | 3 => '3'
  | 4 => '4' | 5 => '5' | 6 => '6' | 7 => '7'
  | 8 => '8' | 9 => '9' | 10 => 'A' | 11 => 'B'
  | 12 => 'C' | 13 => 'D' | 14 => 'E' | _ => 'F'

/-- One byte of the escaped output: `%XX` or the byte itself. -/
def escapeByte (b : Nat) : List Char :=
  if shouldEscape b then ['%', upperhex (b / 16), upperhex (b % 16)]
  else [Char.ofNat b]

/-- `url.PathEscape(s)`. -/
def PathEscape (s : String) : String :=
  ⟨(s.data.flatMap utf8Bytes).flatMap escapeByte⟩

/-! ## Endpoints -/

/-- `"/me/installationTemplate/%s"` applied to the escaped name. -/
def templateEndpoint (name : String) : String :=
  "/me/installationTemplate/" ++ PathEscape name

/-- `"/me/installationTemplate/%s/partitionScheme"`. -/
def partitionSchemeListEndpoint (template : String) : String :=
  "/me/installationTemplate/" ++ PathEscape template ++ "/partitionScheme"

/-- `"/me/installationTemplate/%s/partitionScheme/%s"`. -/
def partitionSchemeEndpoint (template scheme : String) : String :=
  "/me/installationTemplate/" ++ PathEscape template ++ "/partitionScheme/" ++ PathEscape scheme

/-- `"/me/installationTemplate/%s/partitionScheme/%s/partition"`. -/
def partitionListEndpoint (template scheme : String) : String :=
  "/me/installationTemplate/" ++ PathEscape template ++ "/partitionScheme/" ++ PathEscape scheme
    ++ "/partition"

/-- `"/me/installationTemplate/%s/partitionScheme/%s/hardwareRaid"`. -/
def hardwareRaidListEndpoint (template scheme : String) : String :=
  "/me/installationTemplate/" ++ PathEscape template ++ "/partitionScheme/" ++ PathEscape scheme
    ++ "/hardwareRaid"

/-! ## `schema.ResourceData` -/

/-- The resource data of the plugin SDK: the resource ID, the state fields and
the partial-state bookkeeping. -/
structure ResourceData where
  id : String
  fields : String → Option Value
  partialMode : Bool
  partialKeys : List String

/-- `d.Id()`. -/
def ResourceData.Id (d : ResourceData) : String := d.id

/-- `d.SetId(v)`. -/
def ResourceData.SetId (d : ResourceData) (v : String) : ResourceData :=
  { d with id := v }

/-- `d.Get(key)`; `none` stands for a field that was never given a value. -/
def ResourceData.Get (d : ResourceData) (key : String) : Option Value :=
  d.fields key

/-- `d.GetOk(key)`: the value, and whether it is set to a non-zero value. -/
def ResourceData.GetOk (d : ResourceData) (key : String) : Option Value × Bool :=
  match d.fields key with
  | some v => (some v, !v.isZero)
  | none => (none, false)

/-- `d.Set(key, value)` on the resource data of a resource with the given
schema; in the SDK the resource data carries the schema of its resource, here
every operation passes the schema of its own resource. For a key that the
schema does not declare, or a value that does not fit the declared type, the
SDK returns an error and stores nothing; every caller drops that error. -/
def ResourceData.Set (d : ResourceData) (schema : Schema) (key : String) (value : Value) :
    ResourceData :=
  if schema.accepts key value then
    { d with fields := fun k => if k = key then some value else d.fields k }
  else d

/-- `d.Partial(on)`. -/
def ResourceData.Partial (d : ResourceData) (enable : Bool) : ResourceData :=
  { d with partialMode := enable }

/-- `d.SetPartial(key)`. -/
def ResourceData.SetPartial (d : ResourceData) (key : String) : ResourceData :=
  { d with partialKeys := d.partialKeys ++ [key] }

/-- The assertion `.(string)` on a field that the schema types as a string;
an unset field reads as the empty string. -/
def asString : Option Value → String
  | some (.str s) => s
  | _ => ""

/-- The assertion `.(bool)` on a field that the schema types as a boolean. -/
def asBool : Option Value → Bool
  | some (.bool b) => b
  | _ => false

/-! ## Request bodies and message formatting -/

/-- Modelled from the spec: `(&InstallationTemplateCreateOpts{}).FromResource(d)`
is declared outside this file; the body of the creation call is
`{baseTemplateName, defaultLanguage, name}`, read from the three required
fields. -/
def InstallationTemplateCreateOpts.FromResource (d : ResourceData) : Body :=
  [("baseTemplateName", .str (asString (d.Get "base_template_name"))),
   ("defaultLanguage", .str (asString (d.Get "default_language"))),
   ("name", .str (asString (d.Get "template_name")))]

/-- Modelled from the spec: `(&InstallationTemplateUpdateOpts{}).FromResource(d)`
is declared outside this file; the body of the update call holds the
customization fields. -/
def InstallationTemplateUpdateOpts.FromResource (d : ResourceData) : Body :=
  match d.Get "customization" with
  | some v => [("customization", v)]
  | none => []

/-- The two verbs of `fmt` whose output depends on the Go runtime: `%v` on the
options and `%q` on an error. `%s` is plain insertion. -/
structure Fmt where
  v : Body → String
  q : ClientError → String

/-! ## The schema of the installation-template resource -/

/-- The fields of the nested resource `customization`. -/
def customizationSchema : List (String × ScalarType) :=
  [("change_log", .string), ("custom_hostname", .string),
   ("post_installation_script_link", .string), ("post_installation_script_return", .string),
   ("rating", .int), ("ssh_key_name", .string), ("use_distribution_kernel", .bool)]

/-- The `Schema` of `resourceMeInstallationTemplate()`. -/
def installationTemplateSchema : Schema :=
  [("base_template_name", .string), ("default_language", .string), ("template_name", .string),
   ("remove_default_partition_schemes", .bool), ("customization", .blocks customizationSchema),
   ("available_languages", .strings), ("beta", .bool), ("bit_format", .int),
   ("category", .int), ("deprecated", .bool), ("description", .string),
   ("distribution", .string), ("family", .string), ("hard_raid_configuration", .bool),
   ("filesystems", .strings), ("last_modification", .string),
   ("supports_distribution_kernel", .bool), ("supports_gpt_label", .bool),
   ("supports_rtm", .bool), ("supports_sql_server", .bool), ("supports_uefi", .string)]

/-! ## Fetching -/

/-- `getInstallationTemplate(template, client)`. -/
def getInstallationTemplate (template : String) (client : Client) (log : Log) :
    Except String InstallationTemplate × Log :=
  let endpoint := templateEndpoint template
  match client.getTemplate log endpoint with
  | (.error err, log) =>
    (.error ("Error calling GET " ++ endpoint ++ ": " ++ err.text ++ " \n"), log)
  | (.ok r, log) => (.ok r, log)

/-- `getPartitionSchemeIds(template, client)`. -/
def getPartitionSchemeIds (template : String) (client : Client) (log : Log) :
    Except String (List String) × Log :=
  let endpoint := partitionSchemeListEndpoint template
  match client.getStrings log endpoint with
  | (.error err, log) =>
    (.error ("Error calling GET " ++ endpoint ++ ": " ++ err.text ++ " \n"), log)
  | (.ok schemes, log) => (.ok schemes, log)

/-- The loop shared by the three expansion functions:
`for _, n := range names { x, err := fetch(n); if err != nil { return nil, err };
acc = append(acc, x) }; return acc, nil`. -/
def rangeFetch {α : Type} (fetch : String → Log → Except String α × Log) :
    List String → List α → Log → Except String (List α) × Log
  | [], acc, log => (.ok acc, log)
  | n :: names, acc, log =>
    match fetch n log with
    | (.error err, log) => (.error err, log)
    | (.ok x, log) => rangeFetch fetch names (acc ++ [x]) log

/-- `getPartitionSchemePartitions(template, scheme, client)`. The per-name
fetch `getPartitionSchemePartition` is declared outside this file and is a
parameter: any operation on the client and its log. -/
def getPartitionSchemePartitions {Partition : Type}
    (getPartitionSchemePartition :
      String → String → String → Client → Log → Except String Partition × Log)
    (template scheme : String) (client : Client) (log : Log) :
    Except String (List Partition) × Log :=
  let endpoint := partitionListEndpoint template scheme
  match client.getStrings log endpoint with
  | (.error err, log) =>
    (.error ("Error calling GET " ++ endpoint ++ ": " ++ err.text ++ " \n"), log)
  | (.ok mountPoints, log) =>
    rangeFetch (fun mountPoint log =>
      getPartitionSchemePartition template scheme mountPoint client log) mountPoints [] log

/-- `getPartitionSchemeHardwareRaids(template, scheme, client)`, with the
per-name fetch `getPartitionSchemeHardwareRaid` as a parameter. -/
def getPartitionSchemeHardwareRaids {HardwareRaid : Type}
    (getPartitionSchemeHardwareRaid :
      String → String → String → Client → Log → Except String HardwareRaid × Log)
    (template scheme : String) (client : Client) (log : Log) :
    Except String (List HardwareRaid) × Log :=
  let endpoint := hardwareRaidListEndpoint template scheme
  match client.getStrings log endpoint with
  | (.error err, log) =>
    (.error ("Error calling GET " ++ endpoint ++ ": " ++ err.text ++ " \n"), log)
  | (.ok names, log) =>
    rangeFetch (fun name log =>
      getPartitionSchemeHardwareRaid template scheme name client log) names [] log

/-- `getPartitionSchemes(template, client)`, with the per-name fetch
`getPartitionScheme` as a parameter. -/
def getPartitionSchemes {PartitionScheme : Type}
    (getPartitionScheme : String → String → Client → Log → Except String PartitionScheme × Log)
    (template : String) (client : Client) (log : Log) :
    Except String (List PartitionScheme) × Log :=
  match getPartitionSchemeIds template client log with
  | (.error err, log) => (.error err, log)
  | (.ok schemes, log) =>
    rangeFetch (fun scheme log => getPartitionScheme template scheme client log) schemes [] log

/-! ## The operations of the resource -/

/-- `resourceMeInstallationTemplateRead(d, meta)`. -/
def resourceMeInstallationTemplateRead (config : Config) (d : ResourceData) (log : Log) :
    Option String × ResourceData × Log :=
  let name := d.Id
  match getInstallationTemplate name config.OVHClient log with
  | (.error err, log) => (some err, d, log)
  | (.ok template, log) =>
    let d := template.ToMap.entries.foldl
      (fun d kv => d.Set installationTemplateSchema kv.1 kv.2) d
    (none, d.SetId name, log)

/-- The loop of Create over the default schemes: one DELETE per scheme, the
first failure returns. -/
def deleteDefaultSchemes (client : Client) (templateName : String) :
    List String → Log → Option String × Log
  | [], log => (none, log)
  | scheme :: schemes, log =>
    let endpoint := partitionSchemeEndpoint templateName scheme
    match client.delete log endpoint with
    | (some err, log) =>
      (some ("Error calling DELETE " ++ endpoint ++ ": " ++ err.text ++ " \n"), log)
    | (none, log) => deleteDefaultSchemes client templateName schemes log

/-- `resourceMeInstallationTemplateCreate(d, meta)`. -/
def resourceMeInstallationTemplateCreate (fmt : Fmt) (config : Config) (d : ResourceData)
    (log : Log) : Option String × ResourceData × Log :=
  let opts := InstallationTemplateCreateOpts.FromResource d
  let endpoint := "/me/installationTemplate"
  let d := d.Partial true
  match config.OVHClient.post log endpoint opts with
  | (some err, log) =>
    (some ("Error calling POST " ++ endpoint ++ " with opts " ++ fmt.v opts ++ ":\n\t "
      ++ fmt.q err), d, log)
  | (none, log) =>
    let d := d.SetPartial "template_name"
    let d := d.SetPartial "base_template_name"
    let d := d.SetPartial "default_language"
    let d := d.SetId (asString (d.Get "template_name"))
    let updateOpts := InstallationTemplateUpdateOpts.FromResource d
    let endpoint := templateEndpoint d.Id
    match config.OVHClient.put log endpoint updateOpts with
    | (some err, log) =>
      (some ("Error calling PUT " ++ endpoint ++ " with opts " ++ fmt.v opts ++ ":\n\t "
        ++ fmt.q err), d, log)
    | (none, log) =>
      let d := d.SetPartial "customization"
      let removeDefaultPartitions :=
        match d.GetOk "remove_default_partition_schemes" with
        | (v, true) => asBool v
        | (_, false) => false
      let d := d.Set installationTemplateSchema "remove_default_partitions"
        (.bool removeDefaultPartitions)
      if removeDefaultPartitions then
        let templateName := asString (d.Get "template_name")
        match getPartitionSchemeIds templateName config.OVHClient log with
        | (.error err, log) => (some err, d, log)
        | (.ok defaultSchemes, log) =>
          match deleteDefaultSchemes config.OVHClient templateName defaultSchemes log with
          | (some err, log) => (some err, d, log)
          | (none, log) => resourceMeInstallationTemplateRead config (d.Partial false) log
      else
        resourceMeInstallationTemplateRead config (d.Partial false) log

/-- `resourceMeInstallationTemplateUpdate(d, meta)`. -/
def resourceMeInstallationTemplateUpdate (fmt : Fmt) (config : Config) (d : ResourceData)
    (log : Log) : Option String × ResourceData × Log :=
  let opts := InstallationTemplateUpdateOpts.FromResource d
  let endpoint := templateEndpoint d.Id
  match config.OVHClient.put log endpoint opts with
  | (some err, log) =>
    (some ("Error calling PUT " ++ endpoint ++ " with opts " ++ fmt.v opts ++ ":\n\t "
      ++ fmt.q err), d, log)
  | (none, log) => resourceMeInstallationTemplateRead config d log

/-- `resourceMeInstallationTemplateDelete(d, meta)`. -/
def resourceMeInstallationTemplateDelete (config : Config) (d : ResourceData) (log : Log) :
    Option String × ResourceData × Log :=
  let name := asString (d.Get "template_name")
  let endpoint := templateEndpoint name
  match config.OVHClient.delete log endpoint with
  | (some err, log) =>
    (some ("Error calling DELETE " ++ endpoint ++ ": " ++ err.text ++ " \n"), d, log)
  | (none, log) => (none, d, log)

/-- `strings.SplitN(s, "/", 2)`: the text before the first `/` and the whole
remainder after it, or the string alone when it has no `/`. -/
def splitN2 (s : String) : List String :=
  match s.data.span (fun c => c != '/') with
  | (_, []) => [s]
  | (before, _ :: after) => [⟨before⟩, ⟨after⟩]

/-- `resourceMeInstallationTemplateImportState(d, meta)`: the imported
resource data or the error, and the resource data `d` as the call leaves
it. -/
def resourceMeInstallationTemplateImportState (d : ResourceData) :
    Except String (List ResourceData) × ResourceData :=
  let givenId := d.Id
  match splitN2 givenId with
  | [baseTemplateName, templateName] =>
    let d := d.SetId templateName
    let d := d.Set installationTemplateSchema "base_template_name" (.str baseTemplateName)
    let d := d.Set installationTemplateSchema "template_name" (.str templateName)
    (.ok [d], d)
  | _ => (.error "Import Id is not base_template_name/template_name formatted", d)

/-! ## Vocabulary of the statements -/

/-- The calls that ran between two states of the log. -/
def issued (before after : Log) : Log := after.drop before.length

/-- A call without `out` argument that succeeded. -/
def okEvent (m : Method) (path : String) (body : Option Body) : Event :=
  ⟨⟨m, path, body⟩, .ok .nothing⟩

/-- A call that returned the error `err`. -/
def errEvent (m : Method) (path : String) (body : Option Body) (err : ClientError) : Event :=
  ⟨⟨m, path, body⟩, .error err⟩

/-- A GET that decoded the list `l`. -/
def namesEvent (path : String) (l : List String) : Event :=
  ⟨⟨.GET, path, none⟩, .ok (.names l)⟩

/-- A GET that decoded the template `t`. -/
def templateEvent (path : String) (t : InstallationTemplate) : Event :=
  ⟨⟨.GET, path, none⟩, .ok (.template t)⟩

/-- The input value of `template_name`. -/
def templateName (d : ResourceData) : String := asString (d.Get "template_name")

/-- Whether `remove_default_partition_schemes` is set to true. -/
def removeDefaults (d : ResourceData) : Bool :=
  decide (d.Get "remove_default_partition_schemes" = some (.bool true))

/-- The successful creation POST of Create. -/
def createPost (d : ResourceData) : Event :=
  okEvent .POST "/me/installationTemplate" (some (InstallationTemplateCreateOpts.FromResource d))

/-- The successful customization PUT of Create. -/
def createPut (d : ResourceData) : Event :=
  okEvent .PUT (templateEndpoint (templateName d))
    (some (InstallationTemplateUpdateOpts.FromResource d))

/-- The successful DELETE of one scheme. -/
def schemeDelete (template scheme : String) : Event :=
  okEvent .DELETE (partitionSchemeEndpoint template scheme) none

/-- The state that Create hands to its final Read. The fields are the input
fields: the key `remove_default_partitions` that Create sets is not declared
by the schema, so the write is refused. -/
def createState (d : ResourceData) : ResourceData :=
  { id := templateName d,
    fields := d.fields,
    partialMode := false,
    partialKeys := d.partialKeys ++
      ["template_name", "base_template_name", "default_language", "customization"] }

/-- The value a map holds for a key. -/
def GoMap.lookup (m : GoMap) (key : String) : Option Value :=
  (m.entries.find? (fun kv => kv.1 == key)).map Prod.snd

/-! ## The scenario of the specification -/

/-- The desired record base `ubuntu2004`, language `en`, name `my-tpl`, with
`remove_default_partition_schemes` set to true. -/
def scenarioData : ResourceData :=
  { id := "",
    fields := fun k =>
      if k = "base_template_name" then some (.str "ubuntu2004")
      else if k = "default_language" then some (.str "en")
      else if k = "template_name" then some (.str "my-tpl")
      else if k = "remove_default_partition_schemes" then some (.bool true)
      else none,
    partialMode := false,
    partialKeys := [] }

/-- A template as the remote service describes it. -/
def scenarioTemplate : InstallationTemplate :=
  ⟨⟨[("family", .str "linux"), ("bit_format", .int 64)], by decide⟩⟩

/-- A remote service on which every call succeeds and the template exposes
the schemes `default-1` and `default-2`. -/
def scenarioClient : Client :=
  { Post := fun _ _ _ => none,
    Put := fun _ _ _ => none,
    Delete := fun _ _ => none,
    GetStrings := fun _ _ => .ok ["default-1", "default-2"],
    GetTemplate := fun _ _ => .ok scenarioTemplate }

/-- A formatting of the two runtime-dependent verbs. -/
def scenarioFmt : Fmt :=
  { v := fun _ => "opts", q := fun err => "\"" ++ err.text ++ "\"" }

/-- The scenario's service, except that the DELETE of `default-2` fails. -/
def failingDeleteClient : Client :=
  { scenarioClient with
    Delete := fun _ path =>
      if path = "/me/installationTemplate/my-tpl/partitionScheme/default-2" then
        some ⟨500, "Internal Server Error"⟩
      else none }

/-- The scenario's service, except that every PUT fails. -/
def failingPutClient : Client :=
  { scenarioClient with Put := fun _ _ _ => some ⟨400, "Bad Request"⟩ }

/-- A remote service that forgets a template once it is deleted: the first
DELETE of a path succeeds, every later DELETE of that path is answered 404. -/
def forgetfulClient : Client :=
  { scenarioClient with
    Delete := fun log path =>
      if log.any (fun e => decide (e.call.method = .DELETE) && decide (e.call.path = path)
          && !e.failed) then
        some ⟨404, "Error 404: \"This service does not exist\""⟩
      else none }

/-- The propagation policy for one operation: it returns an error exactly
when one of its calls failed, and then the failed call is the last call, every
call before it succeeded, and the message contains the path of the failed
call. -/
def Propagates (r : Option String) (calls : Log) : Prop :=
  (r ≠ none ↔ ∃ e ∈ calls, e.failed = true) ∧
  ∀ msg, r = some msg →
    ∃ before e, calls = before ++ [e] ∧ e.failed = true ∧
      (∀ x ∈ before, x.failed = false) ∧ e.call.path.data <:+: msg.data

/-- The text between the `/` characters of a path. -/
def splitSlash : List Char → List (List Char)
  | [] => [[]]
  | c :: cs =>
    if c = '/' then [] :: splitSlash cs
    else
      match splitSlash cs with
      | [] => [[c]]
      | seg :: segs => (c :: seg) :: segs

/-- The segments of a path; the first one is empty for a path that starts
with `/`. -/
def pathSegments (p : String) : List String := (splitSlash p.data).map String.mk

/-- Whether a path under `/me/installationTemplate/{name}` has a
`partitionScheme` segment below the template name, as every partition-scheme
endpoint has. -/
def hasPartitionSchemeSegment (p : String) : Bool :=
  ((pathSegments p).drop 4).contains "partitionScheme"

/-- The scenario's record once it is created: the resource ID is the
template name. -/
def createdData : ResourceData := scenarioData.SetId "my-tpl"

/-- A template that flattens to the category `basic`, one of the names that
the description of the field lists, and the family `linux`. -/
def categoryTemplate : InstallationTemplate :=
  ⟨⟨[("category", .str "basic"), ("family", .str "linux")], by decide⟩⟩

/-- The scenario's service, describing the template by `categoryTemplate`. -/
def categoryClient : Client :=
  { scenarioClient with GetTemplate := fun _ _ => .ok categoryTemplate }

/-- The identity fields of the record. -/
def identityFields : List String := ["template_name", "base_template_name", "default_language"]

/-- The template carries no other value for the key than the record holds:
the service echoes the field, or leaves it out. -/
def Echoes (t : InstallationTemplate) (d : ResourceData) (key : String) : Prop :=
  ∀ v, t.ToMap.lookup key = some v → d.Get key = some v

/-- The scenario's service, except that it stores the template under the
name `MY-TPL` and describes it so. -/
def renamingClient : Client :=
  { scenarioClient with
    GetTemplate := fun _ _ => .ok ⟨⟨[("template_name", .str "MY-TPL")], by decide⟩⟩ }

/-- A record whose ID is a template name alone. -/
def nameOnlyData : ResourceData := scenarioData.SetId "my-tpl"

/-- A record whose ID is `base_template_name/template_name`. -/
def importData : ResourceData := scenarioData.SetId "ubuntu2004/my-tpl"

/-- The per-name fetches of a list of names ran one after the other on the
log and all succeeded: one object per name, in the order of the names. -/
inductive FetchRun {α : Type} (fetch : String → Log → Except String α × Log) :
    List String → Log → List α → Log → Prop
  | nil (log : Log) : FetchRun fetch [] log [] log
  | cons {n : String} {names : List String} {log log1 log2 : Log} {x : α} {xs : List α} :
      fetch n log = (.ok x, log1) → FetchRun fetch names log1 xs log2 →
      FetchRun fetch (n :: names) log (x :: xs) log2

/-- The per-name fetches ran one after the other and one of them failed with
`err`, the ones before it having succeeded. -/
inductive FetchFail {α : Type} (fetch : String → Log → Except String α × Log) :
    List String → Log → String → Log → Prop
  | here {n : String} {names : List String} {log log1 : Log} {err : String} :
      fetch n log = (.error err, log1) → FetchFail fetch (n :: names) log err log1
  | later {n : String} {names : List String} {log log1 log2 : Log} {x : α} {err : String} :
      fetch n log = (.ok x, log1) → FetchFail fetch names log1 err log2 →
      FetchFail fetch (n :: names) log err log2

/-- All or nothing: the result is the complete list exactly when every fetch
succeeds, and the error of the first failing fetch otherwise. -/
def AllOrNothing {α : Type} (fetch : String → Log → Except String α × Log)
    (names : List String) (log : Log) (r : Except String (List α) × Log) : Prop :=
  (∀ xs log2, FetchRun fetch names log xs log2 → r = (.ok xs, log2)) ∧
  (∀ err log2, FetchFail fetch names log err log2 → r = (.error err, log2)) ∧
  (∀ xs, r.1 = .ok xs → xs.length = names.length ∧ FetchRun fetch names log xs r.2) ∧
  (∀ err, r.1 = .error err → FetchFail fetch names log err r.2)

/-- A per-name fetch that succeeds with the name itself and logs nothing. -/
def echoFetch (n : String) (log : Log) : Except String String × Log := (.ok n, log)

/-! ## The schemas of the load-balancer resources -/

/-- The fields of the nested resource `probe` of the TCP farm. -/
def tcpFarmProbeSchema : List (String × ScalarType) :=
  [("match", .string), ("port", .int), ("interval", .int), ("negate", .bool),
   ("pattern", .string), ("force_ssl", .bool), ("url", .string), ("method", .string),
   ("type", .string)]

/-- The `Schema` of `resourceIpLoadbalancingTcpFarm()`. -/
def tcpFarmSchema : Schema :=
  [("service_name", .string), ("balance", .string), ("display_name", .string), ("port", .int),
   ("stickiness", .string), ("vrack_network_id", .int), ("zone", .string),
   ("probe", .blocks tcpFarmProbeSchema)]

/-- The `Schema` of `resourceIpLoadbalancingTcpFrontend()`. -/
def tcpFrontendSchema : Schema :=
  [("service_name", .string), ("port", .string), ("zone", .string),
   ("allowed_source", .strings), ("dedicated_ipfo", .strings), ("default_farm_id", .int),
   ("default_ssl_id", .int), ("disabled", .bool), ("ssl", .bool), ("display_name", .string)]

/-- The `Schema` of `resourceIpLoadbalancingHttpFarmServer()`. -/
def httpFarmServerSchema : Schema :=
  [("service_name", .string), ("farm_id", .int), ("display_name", .string),
   ("address", .string), ("ssl", .bool), ("cookie", .string), ("port", .int),
   ("proxy_protocol_version", .string), ("chain", .string), ("weight", .int),
   ("probe", .bool), ("backup", .bool), ("status", .string)]

/-! ## Validators and importers of the load-balancer resources -/

/-- Modelled from the spec: `validateStringEnum(value, enum)` is declared
outside the source files at hand; an enum-validated field rejects any value
outside its fixed set. The text of the error is not specified. -/
def validateStringEnum (value : String) (enum : List String) : Option String :=
  if enum.contains value then none
  else some ("Value " ++ value ++ " is not among valid values")

/-- The `ValidateFunc` of the field `status` of the HTTP farm-server
resource: the warnings and the errors. -/
def statusValidateFunc (v : String) (_k : String) : List String × List String :=
  match validateStringEnum v ["active", "inactive"] with
  | some err => ([], [err])
  | none => ([], [])

/-- The `ValidateFunc` of the field `interval` of the probe of the TCP farm
resource: the warnings and the errors. -/
def probeIntervalValidateFunc (v : Int) (_k : String) : List String × List String :=
  let value := v
  if value < 30 ∨ value > 3600 then ([], ["Probe interval not in 30..3600 range"])
  else ([], [])

/-- `resourceIpLoadbalancingTcpFarmImportState(d, meta)`: the result, and the
resource data as the call leaves it. -/
def resourceIpLoadbalancingTcpFarmImportState (d : ResourceData) :
    Except String (List ResourceData) × ResourceData :=
  let givenId := d.Id
  match splitN2 givenId with
  | [serviceName, farmId] =>
    let d := d.SetId farmId
    let d := d.Set tcpFarmSchema "service_name" (.str serviceName)
    (.ok [d], d)
  | _ => (.error "Import Id is not service_name/farm id formatted", d)

/-- `resourceIpLoadbalancingTcpFrontendImportState(d, meta)`. -/
def resourceIpLoadbalancingTcpFrontendImportState (d : ResourceData) :
    Except String (List ResourceData) × ResourceData :=
  let givenId := d.Id
  match splitN2 givenId with
  | [serviceName, frontendId] =>
    let d := d.SetId frontendId
    let d := d.Set tcpFrontendSchema "service_name" (.str serviceName)
    (.ok [d], d)
  | _ => (.error "Import Id is not service_name/frontend id formatted", d)

/-- `strings.SplitN(s, "/", 3)`: split at the first two `/`, the third part
being the whole remainder. -/
def splitN3 (s : String) : List String :=
  match s.data.span (fun c => c != '/') with
  | (_, []) => [s]
  | (before, _ :: after) => ⟨before⟩ :: splitN2 ⟨after⟩

/-- The two errors of `strconv.Atoi`. -/
inductive AtoiError where
  | ErrSyntax
  | ErrRange
deriving DecidableEq, Repr

/-- The text of `err.Error()` for an error of `strconv.Atoi` on the input
`s`; `quote` is `strconv.Quote`. -/
def AtoiError.Error (e : AtoiError) (quote : String → String) (s : String) : String :=
  match e with
  | .ErrSyntax => "strconv.Atoi: parsing " ++ quote s ++ ": invalid syntax"
  | .ErrRange => "strconv.Atoi: parsing " ++ quote s ++ ": value out of range"

/-- The loop of `strconv.ParseUint(s, 10, 64)` over the characters after the
sign: a character that is not a decimal digit is a syntax error, and a value
above the range of `uint64` is a range error at the digit that exceeds it,
whatever follows. -/
def parseUintLoop : List Char → Nat → Nat × Option AtoiError
  | [], n => (n, none)
  | c :: cs, n =>
    if decide ('0' ≤ c) && decide (c ≤ '9') then
      if n * 10 + (c.toNat - 48) > 2 ^ 64 - 1 then (2 ^ 64 - 1, some .ErrRange)
      else parseUintLoop cs (n * 10 + (c.toNat - 48))
    else (0, some .ErrSyntax)

/-- `strconv.Atoi(s)` for a 64-bit `int`: an optional sign and at least one
decimal digit, within the range of `int`. The value is 0 on a syntax error
and the nearest bound on a range error. -/
def Atoi (s : String) : Int × Option AtoiError :=
  let signed : Bool × List Char :=
    match s.data with
    | '-' :: rest => (true, rest)
    | '+' :: rest => (false, rest)
    | rest => (false, rest)
  let digits := signed.2
  if digits.isEmpty then (0, some .ErrSyntax)
  else
    match parseUintLoop digits 0 with
    | (_, some .ErrSyntax) => (0, some .ErrSyntax)
    | (un, _) =>
      if signed.1 then
        if un > 2 ^ 63 then (-(2 ^ 63 : Int), some .ErrRange)
        else (-(un : Int), none)
      else
        if un ≥ 2 ^ 63 then ((2 ^ 63 : Int) - 1, some .ErrRange)
        else ((un : Int), none)

/-- `resourceIpLoadbalancingHttpFarmServerImportState(d, meta)`: the result,
and the resource data as the call leaves it. -/
def resourceIpLoadbalancingHttpFarmServerImportState (quote : String → String)
    (d : ResourceData) : Except String (List ResourceData) × ResourceData :=
  let givenId := d.Id
  match splitN3 givenId with
  | [serviceName, farm, serverId] =>
    match Atoi farm with
    | (farmId, some err) =>
      (.error ("Couldn't cast farmId " ++ toString farmId ++ " to int: " ++ err.Error quote farm),
        d)
    | (farmId, none) =>
      let d := d.SetId serverId
      let d := d.Set httpFarmServerSchema "farm_id" (.int farmId)
      let d := d.Set httpFarmServerSchema "service_name" (.str serviceName)
      (.ok [d], d)
  | _ => (.error "Import Id is not service_name/farm_id/server id formatted", d)

/-- An importer splits the ID at its first `/` only: it fails, leaving the
resource data as it was, exactly when the ID has no `/`; otherwise the ID is
`before ++ "/" ++ after` with no `/` in `before`, and the importer succeeds
with the resource data that `write` builds from the two parts. -/
def SplitsAtFirstSlash (importer : ResourceData → Except String (List ResourceData) × ResourceData)
    (message : String) (write : ResourceData → String → String → ResourceData) : Prop :=
  ∀ d : ResourceData,
    ('/' ∉ d.Id.data → importer d = (.error message, d)) ∧
    ('/' ∈ d.Id.data → ∃ before after, d.Id = before ++ "/" ++ after ∧ '/' ∉ before.data ∧
      importer d = (.ok [write d before after], write d before after))

/-- A record whose ID is `service_name/farm_id/server id`, the last part
holding a `/` of its own. -/
def serverImportData : ResourceData := scenarioData.SetId "lb-1/42/srv/7"

/-! ## The client at the load-balancer resources -/

/-- One request of a load-balancer resource; the body is the struct that is
sent. -/
structure ApiCall (T : Type) where
  method : Method
  path : String
  body : Option T

/-- A request together with its answer: the error, or what was decoded into
the `out` argument (`none` when `out` is `nil`). -/
structure ApiEvent (T : Type) where
  call : ApiCall T
  result : Except ClientError (Option T)

/-- The client for a resource whose requests and responses are structs of
type `T`: one oracle for the calls without `out` argument and one for the
calls that decode a `T`. Every oracle sees the log of the calls answered
before. -/
structure ApiClient (T : Type) where
  Send : List (ApiEvent T) → ApiCall T → Option ClientError
  Fetch : List (ApiEvent T) → ApiCall T → Except ClientError T

/-- `client.Post(endpoint, body, resp)`: the answer and the extended log. -/
def ApiClient.Post {T : Type} (c : ApiClient T) (log : List (ApiEvent T)) (endpoint : String)
    (body : T) : Except ClientError T × List (ApiEvent T) :=
  let r := c.Fetch log ⟨.POST, endpoint, some body⟩
  (r, log ++ [⟨⟨.POST, endpoint, some body⟩, r.map some⟩])

/-- `client.Put(endpoint, body, nil)`. -/
def ApiClient.Put {T : Type} (c : ApiClient T) (log : List (ApiEvent T)) (endpoint : String)
    (body : T) : Option ClientError × List (ApiEvent T) :=
  let r := c.Send log ⟨.PUT, endpoint, some body⟩
  (r, log ++ [⟨⟨.PUT, endpoint, some body⟩,
    match r with
    | some err => .error err
    | none => .ok none⟩])

/-- `client.Get(endpoint, r)`; a call that succeeds has decoded a struct. -/
def ApiClient.Get {T : Type} (c : ApiClient T) (log : List (ApiEvent T)) (endpoint : String) :
    Except ClientError T × List (ApiEvent T) :=
  let r := c.Fetch log ⟨.GET, endpoint, none⟩
  (r, log ++ [⟨⟨.GET, endpoint, none⟩, r.map some⟩])

/-- The outcome of code that may dereference a nil pointer: it completes with
a value or it panics. -/
inductive Run (α : Type) where
  | done (a : α)
  | panicked (reason : String)

/-- Sequencing: a panic ends the run. -/
def Run.bind {α β : Type} (r : Run α) (f : α → Run β) : Run β :=
  match r with
  | .done a => f a
  | .panicked reason => .panicked reason

/-- The dereference `*p` of a pointer: a nil pointer panics. -/
def deref {α : Type} (field : String) (p : Option α) : Run α :=
  match p with
  | some a => .done a
  | none => .panicked ("invalid memory address or nil pointer dereference: " ++ field)

/-- The assertion `.(int)` on a field that the schema types as an integer. -/
def asInt : Option Value → Int
  | some (.int i) => i
  | _ => 0

/-- The helpers that the load-balancer resources call and that are declared
outside the source files at hand; they are parameters of the operations. -/
structure Helpers where
  stringsFromSchema : ResourceData → String → List String
  validateIpBlock : String → Option String
  getNilBoolPointerFromData : ResourceData → String → Option Bool
  getNilIntPointerFromData : ResourceData → String → Option Int

/-! ## The TCP frontend resource -/

/-- Modelled from the spec: the struct `IpLoadbalancingTcpFrontend` is
declared outside the source files at hand; it is the request payload and the
API response of the frontend resource. Its fields are the ones the operations
use, a pointer being an `Option`. -/
structure IpLoadbalancingTcpFrontend where
  FrontendId : Int
  Port : String
  Zone : String
  AllowedSource : List String
  DedicatedIpFo : List String
  DefaultFarmId : Option Int
  DefaultSslId : Option Int
  Disabled : Option Bool
  Ssl : Option Bool
  DisplayName : String

/-- The loop `for _, s := range values { if err := validateIpBlock(s);
err != nil { return fmt.Errorf(prefix + "%s", err) } }`: the error of the
first value that is rejected. -/
def validateEach (validateIpBlock : String → Option String) (errorPrefix : String) :
    List String → Option String
  | [] => none
  | s :: values =>
    match validateIpBlock s with
    | some err => some (errorPrefix ++ err)
    | none => validateEach validateIpBlock errorPrefix values

/-- The struct that Create and Update of the frontend build from the resource
data. -/
def frontendFromData (h : Helpers) (d : ResourceData) (allowedSources dedicatedIpFo : List String) :
    IpLoadbalancingTcpFrontend :=
  { FrontendId := 0,
    Port := asString (d.Get "port"),
    Zone := asString (d.Get "zone"),
    AllowedSource := allowedSources,
    DedicatedIpFo := dedicatedIpFo,
    Disabled := h.getNilBoolPointerFromData d "disabled",
    Ssl := h.getNilBoolPointerFromData d "ssl",
    DisplayName := asString (d.Get "display_name"),
    DefaultFarmId := h.getNilIntPointerFromData d "default_farm_id",
    DefaultSslId := h.getNilIntPointerFromData d "default_ssl_id" }

/-- `readIpLoadbalancingTcpFrontend(r, d)`; it returns nil. -/
def readIpLoadbalancingTcpFrontend (r : IpLoadbalancingTcpFrontend) (d : ResourceData) :
    ResourceData :=
  let d := d.Set tcpFrontendSchema "display_name" (.str r.DisplayName)
  let d := d.Set tcpFrontendSchema "port" (.str r.Port)
  let d := d.Set tcpFrontendSchema "zone" (.str r.Zone)
  let d := d.Set tcpFrontendSchema "allowed_source" (.strs r.AllowedSource)
  let d := d.Set tcpFrontendSchema "dedicated_ipfo" (.strs r.DedicatedIpFo)
  let d := match r.DefaultFarmId with
    | some v => d.Set tcpFrontendSchema "default_farm_id" (.int v)
    | none => d
  let d := match r.DefaultSslId with
    | some v => d.Set tcpFrontendSchema "default_ssl_id" (.int v)
    | none => d
  let d := match r.Disabled with
    | some v => d.Set tcpFrontendSchema "disabled" (.bool v)
    | none => d
  let d := match r.Ssl with
    | some v => d.Set tcpFrontendSchema "ssl" (.bool v)
    | none => d
  d.SetId (toString r.FrontendId)

/-- `resourceIpLoadbalancingTcpFrontendCreate(d, meta)`. -/
def resourceIpLoadbalancingTcpFrontendCreate (h : Helpers)
    (client : ApiClient IpLoadbalancingTcpFrontend) (d : ResourceData)
    (log : List (ApiEvent IpLoadbalancingTcpFrontend)) :
    Option String × ResourceData × List (ApiEvent IpLoadbalancingTcpFrontend) :=
  let allowedSources := h.stringsFromSchema d "allowed_source"
  let dedicatedIpFo := h.stringsFromSchema d "dedicated_ipfo"
  match validateEach h.validateIpBlock "Error validating `allowed_source` value: "
      allowedSources with
  | some err => (some err, d, log)
  | none =>
    match validateEach h.validateIpBlock "Error validating `dedicated_ipfo` value: "
        dedicatedIpFo with
    | some err => (some err, d, log)
    | none =>
      let frontend := frontendFromData h d allowedSources dedicatedIpFo
      let service := asString (d.Get "service_name")
      let endpoint := "/ipLoadbalancing/" ++ service ++ "/tcp/frontend"
      match client.Post log endpoint frontend with
      | (.error err, log) =>
        (some ("calling POST " ++ endpoint ++ ":\n\t " ++ err.text), d, log)
      | (.ok resp, log) => (none, readIpLoadbalancingTcpFrontend resp d, log)

/-- `resourceIpLoadbalancingTcpFrontendUpdate(d, meta)`. -/
def resourceIpLoadbalancingTcpFrontendUpdate (h : Helpers)
    (client : ApiClient IpLoadbalancingTcpFrontend) (d : ResourceData)
    (log : List (ApiEvent IpLoadbalancingTcpFrontend)) :
    Option String × ResourceData × List (ApiEvent IpLoadbalancingTcpFrontend) :=
  let service := asString (d.Get "service_name")
  let endpoint := "/ipLoadbalancing/" ++ service ++ "/tcp/frontend/" ++ d.Id
  let allowedSources := h.stringsFromSchema d "allowed_source"
  let dedicatedIpFo := h.stringsFromSchema d "dedicated_ipfo"
  match validateEach h.validateIpBlock "Error validating `allowed_source` value: "
      allowedSources with
  | some err => (some err, d, log)
  | none =>
    match validateEach h.validateIpBlock "Error validating `dedicated_ipfo` value: "
        dedicatedIpFo with
    | some err => (some err, d, log)
    | none =>
      let frontend := frontendFromData h d allowedSources dedicatedIpFo
      match client.Put log endpoint frontend with
      | (some err, log) => (some ("calling " ++ endpoint ++ ":\n\t " ++ err.text), d, log)
      | (none, log) => (none, d, log)

/-- The method and path of the call of an event. -/
def ApiEvent.line {T : Type} (e : ApiEvent T) : Method × String :=
  (e.call.method, e.call.path)

/-- Every value of both IP-block lists of the record passes
`validateIpBlock`. -/
def IpBlocksValid (h : Helpers) (d : ResourceData) : Prop :=
  ∀ s ∈ h.stringsFromSchema d "allowed_source" ++ h.stringsFromSchema d "dedicated_ipfo",
    h.validateIpBlock s = none

/-- A stand-in for the helpers: the string lists are read from the fields, an
IP block is accepted when it is made of digits, `.`, `:`, `/` and hexadecimal
letters, and an unset field gives a nil pointer. -/
def sampleHelpers : Helpers :=
  { stringsFromSchema := fun d key =>
      match d.Get key with
      | some (.strs l) => l
      | _ => [],
    validateIpBlock := fun s =>
      if !s.isEmpty && s.data.all (fun c => "0123456789abcdefABCDEF.:/".data.contains c) then none
      else some (s ++ " is not a valid ipnet"),
    getNilBoolPointerFromData := fun d key =>
      match d.Get key with
      | some (.bool b) => some b
      | _ => none,
    getNilIntPointerFromData := fun d key =>
      match d.Get key with
      | some (.int i) => some i
      | _ => none }

/-- A frontend record with a malformed `allowed_source`. -/
def badFrontendData : ResourceData :=
  { id := "7",
    fields := fun k =>
      if k = "service_name" then some (.str "lb-1")
      else if k = "port" then some (.str "443")
      else if k = "zone" then some (.str "all")
      else if k = "allowed_source" then some (.strs ["10.0.0.0/8", "not an ip"])
      else none,
    partialMode := false,
    partialKeys := [] }

/-- A frontend record whose IP blocks are well formed. -/
def goodFrontendData : ResourceData :=
  { badFrontendData with
    fields := fun k =>
      if k = "allowed_source" then some (.strs ["10.0.0.0/8"])
      else if k = "dedicated_ipfo" then some (.strs ["192.0.2.1/32"])
      else badFrontendData.fields k }

/-- A service for the frontend resource on which every call succeeds and
echoes the body under the id 7. -/
def frontendClient : ApiClient IpLoadbalancingTcpFrontend :=
  { Send := fun _ _ => none,
    Fetch := fun _ call =>
      match call.body with
      | some body => .ok { body with FrontendId := 7 }
      | none => .ok (frontendFromData sampleHelpers goodFrontendData [] []) }

/-! ## The TCP farm resource -/

/-- Modelled from the spec: the struct `IpLoadbalancingTcpFarmBackendProbe` is
declared outside the source files at hand; its fields are the ones that Read
copies into the `probe` block. -/
structure IpLoadbalancingTcpFarmBackendProbe where
  Match : String
  Port : Int
  Interval : Int
  Negate : Bool
  Pattern : String
  ForceSsl : Bool
  URL : String
  Method : String
  Type_ : String

/-- Modelled from the spec: the struct `IpLoadbalancingTcpFarm` is declared
outside the source files at hand; it is the request payload and the API
response of the farm resource. `Probe` is a pointer. -/
structure IpLoadbalancingTcpFarm where
  FarmId : Int
  Zone : String
  VrackNetworkId : Int
  Port : Int
  Stickiness : String
  Balance : String
  Probe : Option IpLoadbalancingTcpFarmBackendProbe
  DisplayName : String

/-- `resourceIpLoadbalancingTcpFarmRead(d, meta)`. -/
def resourceIpLoadbalancingTcpFarmRead (client : ApiClient IpLoadbalancingTcpFarm)
    (d : ResourceData) (log : List (ApiEvent IpLoadbalancingTcpFarm)) :
    Run (Option String × ResourceData × List (ApiEvent IpLoadbalancingTcpFarm)) :=
  let service := asString (d.Get "service_name")
  let endpoint := "/ipLoadbalancing/" ++ service ++ "/tcp/farm/" ++ d.Id
  match client.Get log endpoint with
  | (.error err, log) => .done (some ("calling " ++ endpoint ++ ":\n\t " ++ err.text), d, log)
  | (.ok r, log) =>
    (deref "r.Probe" r.Probe).bind fun p =>
    let probe : List (String × Scalar) :=
      [("match", .str p.Match), ("port", .int p.Port), ("interval", .int p.Interval),
       ("negate", .bool p.Negate), ("pattern", .str p.Pattern), ("force_ssl", .bool p.ForceSsl),
       ("url", .str p.URL), ("method", .str p.Method), ("type", .str p.Type_)]
    let probes := [probe]
    let d := d.Set tcpFarmSchema "display_name" (.str r.DisplayName)
    let d := d.Set tcpFarmSchema "zone" (.str r.Zone)
    let d := d.Set tcpFarmSchema "port" (.int r.Port)
    let d := d.Set tcpFarmSchema "balance" (.str r.Balance)
    let d := d.Set tcpFarmSchema "probe" (.blocks probes)
    let d := d.Set tcpFarmSchema "vrack_network_id" (.int r.VrackNetworkId)
    let d := d.Set tcpFarmSchema "stickinesss" (.str r.Stickiness)
    .done (none, d, log)

/-- A farm record of the service `lb-1` with the ID 42, whose `stickiness`
is not set. -/
def farmData : ResourceData :=
  { id := "42",
    fields := fun k => if k = "service_name" then some (.str "lb-1") else none,
    partialMode := false,
    partialKeys := [] }

/-- A farm as the service describes it, with the stickiness `sourceIp`. -/
def farmResponse : IpLoadbalancingTcpFarm :=
  { FarmId := 42, Zone := "all", VrackNetworkId := 7, Port := 443, Stickiness := "sourceIp",
    Balance := "roundrobin", DisplayName := "farm",
    Probe := some
      { Match := "default", Port := 443, Interval := 30, Negate := false, Pattern := "",
        ForceSsl := false, URL := "", Method := "GET", Type_ := "tcp" } }

/-- A service that answers every GET with `farmResponse`. -/
def farmClient : ApiClient IpLoadbalancingTcpFarm :=
  { Send := fun _ _ => none, Fetch := fun _ _ => .ok farmResponse }

/-! ## The HTTP farm-server resource -/

/-- Modelled from the spec: the struct `IpLoadbalancingHttpFarmServer` is
declared outside the source files at hand; it is the request payload and the
API response of the farm-server resource. The fields that Create fills from
a nil-pointer helper, and `Cookie`, are pointers. -/
structure IpLoadbalancingHttpFarmServer where
  ServerId : Int
  DisplayName : Option String
  Address : String
  Port : Option Int
  ProxyProtocolVersion : Option String
  Chain : Option String
  Weight : Option Int
  Probe : Option Bool
  Ssl : Option Bool
  Backup : Option Bool
  Status : String
  Cookie : Option String

/-- `resourceIpLoadbalancingHttpFarmServerRead(d, meta)`; the debug line that
it logs is left out. -/
def resourceIpLoadbalancingHttpFarmServerRead (fmt : Fmt)
    (client : ApiClient IpLoadbalancingHttpFarmServer) (d : ResourceData)
    (log : List (ApiEvent IpLoadbalancingHttpFarmServer)) :
    Run (Option String × ResourceData × List (ApiEvent IpLoadbalancingHttpFarmServer)) :=
  let service := asString (d.Get "service_name")
  let farmid := asInt (d.Get "farm_id")
  let endpoint := "/ipLoadbalancing/" ++ service ++ "/http/farm/" ++ toString farmid
    ++ "/server/" ++ d.Id
  match client.Get log endpoint with
  | (.error err, log) => .done (some ("calling " ++ endpoint ++ " :\n\t " ++ fmt.q err), d, log)
  | (.ok r, log) =>
    (deref "r.Probe" r.Probe).bind fun probe =>
    let d := d.Set httpFarmServerSchema "probe" (.bool probe)
    (deref "r.Ssl" r.Ssl).bind fun ssl =>
    let d := d.Set httpFarmServerSchema "ssl" (.bool ssl)
    (deref "r.Backup" r.Backup).bind fun backup =>
    let d := d.Set httpFarmServerSchema "backup" (.bool backup)
    let d := d.Set httpFarmServerSchema "address" (.str r.Address)
    let d := match r.DisplayName with
      | some v => d.Set httpFarmServerSchema "display_name" (.str v)
      | none => d
    let d := match r.Cookie with
      | some v => d.Set httpFarmServerSchema "cookie" (.str v)
      | none => d
    let d := match r.Port with
      | some v => d.Set httpFarmServerSchema "port" (.int v)
      | none => d
    let d := match r.ProxyProtocolVersion with
      | some v => d.Set httpFarmServerSchema "proxy_protocol_version" (.str v)
      | none => d
    let d := match r.Chain with
      | some v => d.Set httpFarmServerSchema "chain" (.str v)
      | none => d
    (deref "r.Weight" r.Weight).bind fun weight =>
    let d := d.Set httpFarmServerSchema "weight" (.int weight)
    let d := d.Set httpFarmServerSchema "status" (.str r.Status)
    .done (none, d, log)

/-- Whether a run completed without panic and without error. -/
def Run.succeeded {σ : Type} : Run (Option String × σ) → Bool
  | .done (none, _) => true
  | _ => false

/-- Whether a run panicked. -/
def Run.isPanic {α : Type} : Run α → Bool
  | .panicked _ => true
  | .done _ => false

/-- A farm-server record of the farm 42 of the service `lb-1`. -/
def serverData : ResourceData :=
  { id := "7",
    fields := fun k =>
      if k = "service_name" then some (.str "lb-1")
      else if k = "farm_id" then some (.int 42)
      else none,
    partialMode := false,
    partialKeys := [] }

/-- The server decoded from a response that holds the address and the status
only: every optional field is absent. -/
def bareServerResponse : IpLoadbalancingHttpFarmServer :=
  { ServerId := 7, Address := "10.0.0.1", Status := "active", DisplayName := none, Port := none,
    ProxyProtocolVersion := none, Chain := none, Weight := none, Probe := none, Ssl := none,
    Backup := none, Cookie := none }

/-- A service that answers every GET with `bareServerResponse`. -/
def bareServerClient : ApiClient IpLoadbalancingHttpFarmServer :=
  { Send := fun _ _ => none, Fetch := fun _ _ => .ok bareServerResponse }

/-! ## Lemmas on the log and on the operations -/

theorem issued_append (log l : Log) : issued log (log ++ l) = l := by
  simp [issued]

/-- A write that the schema accepts is read back. -/
theorem get_set_accepted (d : ResourceData) (schema : Schema) (key : String) (value : Value)
    (h : schema.accepts key value = true) : (d.Set schema key value).Get key = some value := by
  simp [ResourceData.Set, ResourceData.Get, h]

/-- A write that the schema refuses changes nothing. -/
theorem set_refused (d : ResourceData) (schema : Schema) (key : String) (value : Value)
    (h : schema.accepts key value = false) : d.Set schema key value = d := by
  simp [ResourceData.Set, h]

/-- A write leaves the other fields as they were. -/
theorem get_set_other (d : ResourceData) (schema : Schema) (key k : String) (value : Value)
    (h : k ≠ key) : (d.Set schema key value).Get k = d.Get k := by
  unfold ResourceData.Set
  cases schema.accepts key value <;> simp [ResourceData.Get, h]

theorem read_error (config : Config) (d : ResourceData) (log : Log) (err : ClientError)
    (h : config.OVHClient.GetTemplate log (templateEndpoint d.id) = .error err) :
    resourceMeInstallationTemplateRead config d log =
      (some ("Error calling GET " ++ templateEndpoint d.id ++ ": " ++ err.text ++ " \n"), d,
        log ++ [errEvent .GET (templateEndpoint d.id) none err]) := by
  simp [resourceMeInstallationTemplateRead, getInstallationTemplate, Client.getTemplate,
    ResourceData.Id, h, errEvent, Except.map]

theorem read_ok (config : Config) (d : ResourceData) (log : Log) (t : InstallationTemplate)
    (h : config.OVHClient.GetTemplate log (templateEndpoint d.id) = .ok t) :
    resourceMeInstallationTemplateRead config d log =
      (none, (t.ToMap.entries.foldl
        (fun d kv => d.Set installationTemplateSchema kv.1 kv.2) d).SetId d.id,
        log ++ [templateEvent (templateEndpoint d.id) t]) := by
  simp [resourceMeInstallationTemplateRead, getInstallationTemplate, Client.getTemplate,
    ResourceData.Id, h, templateEvent, Except.map]

theorem deleteDefaultSchemes_fail (c : Client) (tn : String) (pre : List String) (s : String)
    (post : List String) (log : Log) (err : ClientError)
    (hpre : ∀ i, (hi : i < pre.length) →
      c.Delete (log ++ (pre.take i).map (schemeDelete tn))
        (partitionSchemeEndpoint tn pre[i]) = none)
    (hs : c.Delete (log ++ pre.map (schemeDelete tn)) (partitionSchemeEndpoint tn s) = some err) :
    deleteDefaultSchemes c tn (pre ++ s :: post) log =
      (some ("Error calling DELETE " ++ partitionSchemeEndpoint tn s ++ ": " ++ err.text ++ " \n"),
        log ++ pre.map (schemeDelete tn) ++
          [errEvent .DELETE (partitionSchemeEndpoint tn s) none err]) := by
  induction pre generalizing log with
  | nil =>
    simp at hs
    simp [deleteDefaultSchemes, Client.delete, hs, replyOfError, errEvent]
  | cons x rest ih =>
    have h0 := hpre 0 (by simp)
    simp at h0
    have hrest := ih (log ++ [schemeDelete tn x]) (fun i hi => by
      have := hpre (i + 1) (by simpa using hi)
      simpa using this) (by simpa using hs)
    simp [deleteDefaultSchemes, Client.delete, h0, replyOfError] at hrest ⊢
    simpa [schemeDelete, okEvent] using hrest

/-- The loop either deletes every scheme or stops at the first DELETE that
fails. -/
theorem deleteDefaultSchemes_cases (c : Client) (tn : String) (schemes : List String)
    (log : Log) :
    deleteDefaultSchemes c tn schemes log = (none, log ++ schemes.map (schemeDelete tn)) ∨
    ∃ pre s post err, schemes = pre ++ s :: post ∧
      deleteDefaultSchemes c tn schemes log =
        (some ("Error calling DELETE " ++ partitionSchemeEndpoint tn s ++ ": " ++ err.text
          ++ " \n"),
          log ++ pre.map (schemeDelete tn) ++
            [errEvent .DELETE (partitionSchemeEndpoint tn s) none err]) := by
  induction schemes generalizing log with
  | nil => left; simp [deleteDefaultSchemes]
  | cons s rest ih =>
    cases h : c.Delete log (partitionSchemeEndpoint tn s) with
    | some err =>
      right
      refine ⟨[], s, rest, err, rfl, ?_⟩
      simp [deleteDefaultSchemes, Client.delete, h, replyOfError, errEvent]
    | none =>
      rcases ih (log ++ [schemeDelete tn s]) with hok | ⟨pre, x, post, err, hsplit, hrun⟩
      · left
        simp [deleteDefaultSchemes, Client.delete, h, replyOfError] at hok ⊢
        simpa [schemeDelete, okEvent] using hok
      · right
        refine ⟨s :: pre, x, post, err, by simp [hsplit], ?_⟩
        simp [deleteDefaultSchemes, Client.delete, h, replyOfError] at hrun ⊢
        simpa [schemeDelete, okEvent] using hrun

theorem removeDefaults_eq (d : ResourceData) :
    (match d.GetOk "remove_default_partition_schemes" with
      | (v, true) => asBool v
      | (_, false) => false) = removeDefaults d := by
  unfold ResourceData.GetOk removeDefaults ResourceData.Get
  cases h : d.fields "remove_default_partition_schemes" with
  | none => simp
  | some v =>
    cases v with
    | bool b => cases b <;> simp [Value.isZero, asBool]
    | str s => cases hz : (!(s == "")) <;> simp [Value.isZero, asBool, hz]
    | int i => cases hz : (!(i == 0)) <;> simp [Value.isZero, asBool, hz]
    | strs l => cases hz : (!l.isEmpty) <;> simp [Value.isZero, asBool, hz]
    | blocks l => cases hz : (!l.isEmpty) <;> simp [Value.isZero, asBool, hz]

/-- The state and the messages of Create up to its three exits before the
loop, and the hand-over to Read. -/
theorem create_post_error (fmt : Fmt) (config : Config) (d : ResourceData) (log : Log)
    (err : ClientError)
    (hpost : config.OVHClient.Post log "/me/installationTemplate"
      (InstallationTemplateCreateOpts.FromResource d) = some err) :
    resourceMeInstallationTemplateCreate fmt config d log =
      (some ("Error calling POST " ++ "/me/installationTemplate" ++ " with opts "
        ++ fmt.v (InstallationTemplateCreateOpts.FromResource d) ++ ":\n\t " ++ fmt.q err),
        d.Partial true,
        log ++ [errEvent .POST "/me/installationTemplate"
          (some (InstallationTemplateCreateOpts.FromResource d)) err]) := by
  simp [resourceMeInstallationTemplateCreate, Client.post, hpost, replyOfError, errEvent]

theorem create_put_error (fmt : Fmt) (config : Config) (d : ResourceData) (log : Log)
    (err : ClientError)
    (hpost : config.OVHClient.Post log "/me/installationTemplate"
      (InstallationTemplateCreateOpts.FromResource d) = none)
    (hput : config.OVHClient.Put (log ++ [createPost d]) (templateEndpoint (templateName d))
      (InstallationTemplateUpdateOpts.FromResource d) = some err) :
    (resourceMeInstallationTemplateCreate fmt config d log).1 =
      some ("Error calling PUT " ++ templateEndpoint (templateName d) ++ " with opts "
        ++ fmt.v (InstallationTemplateCreateOpts.FromResource d) ++ ":\n\t " ++ fmt.q err) ∧
    (resourceMeInstallationTemplateCreate fmt config d log).2.2 =
      log ++ [createPost d, errEvent .PUT (templateEndpoint (templateName d))
        (some (InstallationTemplateUpdateOpts.FromResource d)) err] := by
  have hput2 : config.OVHClient.Put
      (log ++ [⟨⟨.POST, "/me/installationTemplate",
        some (InstallationTemplateCreateOpts.FromResource d)⟩, .ok .nothing⟩])
      (templateEndpoint (asString (d.fields "template_name")))
      (InstallationTemplateUpdateOpts.FromResource d) = some err := hput
  constructor <;>
  simp [resourceMeInstallationTemplateCreate, Client.post, Client.put, hpost, replyOfError,
    errEvent, createPost, okEvent, templateName, ResourceData.Get, ResourceData.SetId,
    ResourceData.Id, ResourceData.SetPartial, ResourceData.Partial,
    InstallationTemplateUpdateOpts.FromResource] <;>
  simp [InstallationTemplateUpdateOpts.FromResource, ResourceData.Get] at hput2 <;>
  simp [hput2]

/-- The key that Create sets for the flag is not a field of the schema. -/
theorem accepts_remove_default_partitions (v : Value) :
    installationTemplateSchema.accepts "remove_default_partitions" v = false := rfl

/-- Create after its POST and PUT succeeded: the optional removal of the
default schemes, then Read. -/
theorem create_after_put (fmt : Fmt) (config : Config) (d : ResourceData) (log : Log)
    (hpost : config.OVHClient.Post log "/me/installationTemplate"
      (InstallationTemplateCreateOpts.FromResource d) = none)
    (hput : config.OVHClient.Put (log ++ [createPost d]) (templateEndpoint (templateName d))
      (InstallationTemplateUpdateOpts.FromResource d) = none) :
    resourceMeInstallationTemplateCreate fmt config d log =
      if removeDefaults d then
        match getPartitionSchemeIds (templateName d) config.OVHClient
            (log ++ [createPost d, createPut d]) with
        | (.error err, log) => (some err, (createState d).Partial true, log)
        | (.ok defaultSchemes, log) =>
          match deleteDefaultSchemes config.OVHClient (templateName d) defaultSchemes log with
          | (some err, log) => (some err, (createState d).Partial true, log)
          | (none, log) => resourceMeInstallationTemplateRead config (createState d) log
      else
        resourceMeInstallationTemplateRead config (createState d)
          (log ++ [createPost d, createPut d]) := by
  have hput2 : config.OVHClient.Put
      (log ++ [⟨⟨.POST, "/me/installationTemplate",
        some (InstallationTemplateCreateOpts.FromResource d)⟩, .ok .nothing⟩])
      (templateEndpoint (asString (d.fields "template_name")))
      (match d.fields "customization" with
        | some v => [("customization", v)]
        | none => []) = none := hput
  have hflag := removeDefaults_eq d
  simp only [ResourceData.GetOk] at hflag
  simp only [resourceMeInstallationTemplateCreate, Client.post, Client.put, hpost, replyOfError,
    ResourceData.Get, ResourceData.SetId, ResourceData.GetOk,
    ResourceData.Id, ResourceData.SetPartial, ResourceData.Partial, ResourceData.Set,
    InstallationTemplateUpdateOpts.FromResource, hput2, hflag]
  cases hf : removeDefaults d
  · simp [createState, createPost, createPut, okEvent, templateName, ResourceData.Get, hf,
      InstallationTemplateUpdateOpts.FromResource, accepts_remove_default_partitions]
  · simp [createState, createPost, createPut, okEvent, templateName, ResourceData.Get, hf,
      InstallationTemplateUpdateOpts.FromResource, ResourceData.Partial,
      accepts_remove_default_partitions]

theorem getPartitionSchemeIds_ok (template : String) (c : Client) (log : Log)
    (l : List String)
    (h : c.GetStrings log (partitionSchemeListEndpoint template) = .ok l) :
    getPartitionSchemeIds template c log =
      (.ok l, log ++ [namesEvent (partitionSchemeListEndpoint template) l]) := by
  simp [getPartitionSchemeIds, Client.getStrings, h, namesEvent, Except.map]

theorem getPartitionSchemeIds_error (template : String) (c : Client) (log : Log)
    (err : ClientError)
    (h : c.GetStrings log (partitionSchemeListEndpoint template) = .error err) :
    getPartitionSchemeIds template c log =
      (.error ("Error calling GET " ++ partitionSchemeListEndpoint template ++ ": "
        ++ err.text ++ " \n"),
        log ++ [errEvent .GET (partitionSchemeListEndpoint template) none err]) := by
  simp [getPartitionSchemeIds, Client.getStrings, h, errEvent, Except.map]

theorem failed_errEvent (m : Method) (p : String) (b : Option Body) (err : ClientError) :
    (errEvent m p b err).failed = true := rfl

theorem failed_okEvent (m : Method) (p : String) (b : Option Body) :
    (okEvent m p b).failed = false := rfl

theorem failed_templateEvent (p : String) (t : InstallationTemplate) :
    (templateEvent p t).failed = false := rfl

theorem createState_id (d : ResourceData) : (createState d).id = templateName d := rfl

/-- C1: when every call that Create issues succeeds, Create returns no error
and its calls are exactly the creation POST, the customization PUT, then,
only if `remove_default_partition_schemes` is set to true, the GET of the
scheme names followed by one DELETE per listed scheme in the listed order,
and last the GET of the template; without the flag no scheme is listed or
deleted. -/
theorem create_call_sequence (fmt : Fmt) (config : Config) (d : ResourceData) (log : Log)
    (hok : ∀ e ∈ issued log (resourceMeInstallationTemplateCreate fmt config d log).2.2,
      e.failed = false) :
    (resourceMeInstallationTemplateCreate fmt config d log).1 = none ∧
    (removeDefaults d = true → ∃ schemes t,
      issued log (resourceMeInstallationTemplateCreate fmt config d log).2.2 =
        [createPost d, createPut d,
          namesEvent (partitionSchemeListEndpoint (templateName d)) schemes]
        ++ schemes.map (schemeDelete (templateName d))
        ++ [templateEvent (templateEndpoint (templateName d)) t]) ∧
    (removeDefaults d = false → ∃ t,
      issued log (resourceMeInstallationTemplateCreate fmt config d log).2.2 =
        [createPost d, createPut d, templateEvent (templateEndpoint (templateName d)) t]) := by
  cases hpost : config.OVHClient.Post log "/me/installationTemplate"
      (InstallationTemplateCreateOpts.FromResource d) with
  | some err =>
    rw [create_post_error fmt config d log err hpost] at hok
    exact absurd (hok (errEvent .POST "/me/installationTemplate"
      (some (InstallationTemplateCreateOpts.FromResource d)) err) (by simp [issued_append]))
      (by simp [failed_errEvent])
  | none =>
    cases hput : config.OVHClient.Put (log ++ [createPost d]) (templateEndpoint (templateName d))
        (InstallationTemplateUpdateOpts.FromResource d) with
    | some err =>
      rw [(create_put_error fmt config d log err hpost hput).2] at hok
      exact absurd (hok (errEvent .PUT (templateEndpoint (templateName d))
        (some (InstallationTemplateUpdateOpts.FromResource d)) err) (by simp [issued_append]))
        (by simp [failed_errEvent])
    | none =>
      rw [create_after_put fmt config d log hpost hput] at hok ⊢
      cases hf : removeDefaults d with
      | false =>
        simp only [hf, Bool.false_eq_true, if_false] at hok ⊢
        cases hget : config.OVHClient.GetTemplate (log ++ [createPost d, createPut d])
            (templateEndpoint (createState d).id) with
        | error err =>
          rw [read_error config _ _ err hget] at hok
          exact absurd (hok (errEvent .GET (templateEndpoint (createState d).id) none err)
            (by simp [issued, List.append_assoc])) (by simp [failed_errEvent])
        | ok t =>
          rw [read_ok config _ _ t hget]
          refine ⟨rfl, fun h => absurd h (by simp), fun _ => ⟨t, ?_⟩⟩
          simp [issued, createState_id]
      | true =>
        simp only [hf, if_true] at hok ⊢
        cases hlist : config.OVHClient.GetStrings (log ++ [createPost d, createPut d])
            (partitionSchemeListEndpoint (templateName d)) with
        | error err =>
          rw [getPartitionSchemeIds_error _ _ _ err hlist] at hok
          exact absurd (hok (errEvent .GET (partitionSchemeListEndpoint (templateName d)) none
            err) (by simp [issued, List.append_assoc])) (by simp [failed_errEvent])
        | ok schemes =>
          rw [getPartitionSchemeIds_ok _ _ _ schemes hlist] at hok ⊢
          rcases deleteDefaultSchemes_cases config.OVHClient (templateName d) schemes
            (log ++ [createPost d, createPut d] ++
              [namesEvent (partitionSchemeListEndpoint (templateName d)) schemes]) with
            hdel | ⟨pre, s, post, err, _, hdel⟩
          · simp only [hdel] at hok ⊢
            cases hget : config.OVHClient.GetTemplate
                (log ++ [createPost d, createPut d] ++
                  [namesEvent (partitionSchemeListEndpoint (templateName d)) schemes] ++
                  schemes.map (schemeDelete (templateName d)))
                (templateEndpoint (createState d).id) with
            | error err =>
              rw [read_error config _ _ err hget] at hok
              exact absurd (hok (errEvent .GET (templateEndpoint (createState d).id) none err)
                (by simp [issued, List.append_assoc])) (by simp [failed_errEvent])
            | ok t =>
              rw [read_ok config _ _ t hget]
              refine ⟨rfl, fun _ => ⟨schemes, t, ?_⟩, fun h => absurd h (by simp)⟩
              simp [issued, createState_id, List.append_assoc]
          · simp only [hdel] at hok
            exact absurd (hok (errEvent .DELETE (partitionSchemeEndpoint (templateName d) s)
              none err) (by simp [issued, List.append_assoc])) (by simp [failed_errEvent])

theorem create_call_sequence_witness :
    (∀ e ∈ issued [] (resourceMeInstallationTemplateCreate scenarioFmt ⟨scenarioClient⟩
      scenarioData []).2.2, e.failed = false) ∧
    removeDefaults scenarioData = true ∧
    (issued [] (resourceMeInstallationTemplateCreate scenarioFmt ⟨scenarioClient⟩
      scenarioData []).2.2).map Event.line =
      [(.POST, "/me/installationTemplate"),
       (.PUT, "/me/installationTemplate/my-tpl"),
       (.GET, "/me/installationTemplate/my-tpl/partitionScheme"),
       (.DELETE, "/me/installationTemplate/my-tpl/partitionScheme/default-1"),
       (.DELETE, "/me/installationTemplate/my-tpl/partitionScheme/default-2"),
       (.GET, "/me/installationTemplate/my-tpl")] ∧
    (resourceMeInstallationTemplateCreate scenarioFmt ⟨scenarioClient⟩ scenarioData []).1
      = none :=
  ⟨by decide, by decide, by decide,
    (create_call_sequence scenarioFmt ⟨scenarioClient⟩ scenarioData [] (by decide)).1⟩

/-- C2: with `remove_default_partition_schemes` set to true and the listed
schemes `pre ++ s :: post`, if the DELETE calls for `pre` succeed and the one
for `s` fails, Create returns the DELETE error and its calls are the POST, the
PUT, the list GET and the DELETE calls for `pre` and `s` in order: no DELETE
for `post`, no final GET, and nothing but DELETE calls after the list. -/
theorem create_delete_failure (fmt : Fmt) (config : Config) (d : ResourceData) (log : Log)
    (pre : List String) (s : String) (post : List String) (err : ClientError)
    (hflag : removeDefaults d = true)
    (hpost : config.OVHClient.Post log "/me/installationTemplate"
      (InstallationTemplateCreateOpts.FromResource d) = none)
    (hput : config.OVHClient.Put (log ++ [createPost d]) (templateEndpoint (templateName d))
      (InstallationTemplateUpdateOpts.FromResource d) = none)
    (hlist : config.OVHClient.GetStrings (log ++ [createPost d, createPut d])
      (partitionSchemeListEndpoint (templateName d)) = .ok (pre ++ s :: post))
    (hpre : ∀ i, (hi : i < pre.length) →
      config.OVHClient.Delete
        (log ++ [createPost d, createPut d,
            namesEvent (partitionSchemeListEndpoint (templateName d)) (pre ++ s :: post)]
          ++ (pre.take i).map (schemeDelete (templateName d)))
        (partitionSchemeEndpoint (templateName d) pre[i]) = none)
    (hfail : config.OVHClient.Delete
        (log ++ [createPost d, createPut d,
            namesEvent (partitionSchemeListEndpoint (templateName d)) (pre ++ s :: post)]
          ++ pre.map (schemeDelete (templateName d)))
        (partitionSchemeEndpoint (templateName d) s) = some err) :
    (resourceMeInstallationTemplateCreate fmt config d log).1 =
      some ("Error calling DELETE " ++ partitionSchemeEndpoint (templateName d) s ++ ": "
        ++ err.text ++ " \n") ∧
    issued log (resourceMeInstallationTemplateCreate fmt config d log).2.2 =
      [createPost d, createPut d,
        namesEvent (partitionSchemeListEndpoint (templateName d)) (pre ++ s :: post)]
      ++ pre.map (schemeDelete (templateName d))
      ++ [errEvent .DELETE (partitionSchemeEndpoint (templateName d) s) none err] ∧
    ((issued log (resourceMeInstallationTemplateCreate fmt config d log).2.2).drop 3).map
        Event.line =
      (pre ++ [s]).map (fun x => (Method.DELETE, partitionSchemeEndpoint (templateName d) x)) := by
  have hdel := deleteDefaultSchemes_fail config.OVHClient (templateName d) pre s post
    (log ++ [createPost d, createPut d,
      namesEvent (partitionSchemeListEndpoint (templateName d)) (pre ++ s :: post)]) err hpre hfail
  have hrun : resourceMeInstallationTemplateCreate fmt config d log =
      (some ("Error calling DELETE " ++ partitionSchemeEndpoint (templateName d) s ++ ": "
        ++ err.text ++ " \n"), (createState d).Partial true,
        log ++ ([createPost d, createPut d,
          namesEvent (partitionSchemeListEndpoint (templateName d)) (pre ++ s :: post)]
        ++ pre.map (schemeDelete (templateName d))
        ++ [errEvent .DELETE (partitionSchemeEndpoint (templateName d) s) none err])) := by
    rw [create_after_put fmt config d log hpost hput]
    simp only [hflag, if_true]
    rw [getPartitionSchemeIds_ok _ _ _ _ hlist]
    simp only [List.append_assoc, List.cons_append, List.nil_append] at hdel ⊢
    simp only [hdel]
  rw [hrun]
  refine ⟨rfl, issued_append _ _, ?_⟩
  simp [issued_append, Event.line, schemeDelete, okEvent, errEvent]

theorem create_delete_failure_witness :
    (resourceMeInstallationTemplateCreate scenarioFmt ⟨failingDeleteClient⟩ scenarioData []).1 =
      some ("Error calling DELETE "
        ++ partitionSchemeEndpoint (templateName scenarioData) "default-2" ++ ": "
        ++ "Internal Server Error" ++ " \n") :=
  (create_delete_failure scenarioFmt ⟨failingDeleteClient⟩ scenarioData []
    ["default-1"] "default-2" [] ⟨500, "Internal Server Error"⟩
    (by decide) (by decide) (by decide) rfl (by decide) (by decide)).1

/-- C3: if the creation POST succeeds and the customization PUT fails, Create
returns the PUT error and its calls are exactly the POST and the PUT: the
created template is not deleted and nothing else is called. -/
theorem create_put_failure (fmt : Fmt) (config : Config) (d : ResourceData) (log : Log)
    (err : ClientError)
    (hpost : config.OVHClient.Post log "/me/installationTemplate"
      (InstallationTemplateCreateOpts.FromResource d) = none)
    (hput : config.OVHClient.Put (log ++ [createPost d]) (templateEndpoint (templateName d))
      (InstallationTemplateUpdateOpts.FromResource d) = some err) :
    (resourceMeInstallationTemplateCreate fmt config d log).1 =
      some ("Error calling PUT " ++ templateEndpoint (templateName d) ++ " with opts "
        ++ fmt.v (InstallationTemplateCreateOpts.FromResource d) ++ ":\n\t " ++ fmt.q err) ∧
    issued log (resourceMeInstallationTemplateCreate fmt config d log).2.2 =
      [createPost d, errEvent .PUT (templateEndpoint (templateName d))
        (some (InstallationTemplateUpdateOpts.FromResource d)) err] ∧
    (issued log (resourceMeInstallationTemplateCreate fmt config d log).2.2).map Event.line =
      [(.POST, "/me/installationTemplate"), (.PUT, templateEndpoint (templateName d))] := by
  obtain ⟨h1, h2⟩ := create_put_error fmt config d log err hpost hput
  rw [h1, h2]
  exact ⟨rfl, issued_append _ _, by simp [issued_append, Event.line, createPost, okEvent, errEvent]⟩

theorem create_put_failure_witness :
    (issued [] (resourceMeInstallationTemplateCreate scenarioFmt ⟨failingPutClient⟩
      scenarioData []).2.2).map Event.line =
      [(.POST, "/me/installationTemplate"),
        (.PUT, templateEndpoint (templateName scenarioData))] :=
  (create_put_failure scenarioFmt ⟨failingPutClient⟩ scenarioData [] ⟨400, "Bad Request"⟩
    (by decide) (by decide)).2.2

/-- C4, as the code behaves: Delete issues one DELETE and returns the error of
that call, wrapped, whatever its status (a 404 included); it returns no error
exactly when the call succeeds. -/
theorem delete_returns_call_error (config : Config) (d : ResourceData) (log : Log) :
    (resourceMeInstallationTemplateDelete config d log).1 =
      (config.OVHClient.Delete log (templateEndpoint (templateName d))).map
        (fun err => "Error calling DELETE " ++ templateEndpoint (templateName d) ++ ": "
          ++ err.text ++ " \n") ∧
    (issued log (resourceMeInstallationTemplateDelete config d log).2.2).map Event.line =
      [(.DELETE, templateEndpoint (templateName d))] := by
  cases h : config.OVHClient.Delete log (templateEndpoint (templateName d)) with
  | none =>
    have h2 : config.OVHClient.Delete log (templateEndpoint (asString (d.Get "template_name")))
      = none := h
    simp [resourceMeInstallationTemplateDelete, Client.delete, h2, issued, Event.line,
      templateName]
  | some err =>
    have h2 : config.OVHClient.Delete log (templateEndpoint (asString (d.Get "template_name")))
      = some err := h
    simp [resourceMeInstallationTemplateDelete, Client.delete, h2, issued, Event.line,
      templateName]

/-- C4, the claim refuted: on a service that answers the second DELETE of a
name with 404, the first Delete returns no error and the second Delete, on
the same name, returns an error. -/
theorem delete_twice_returns_error :
    (resourceMeInstallationTemplateDelete ⟨forgetfulClient⟩ scenarioData []).1 = none ∧
    forgetfulClient.Delete
      (resourceMeInstallationTemplateDelete ⟨forgetfulClient⟩ scenarioData []).2.2
      (templateEndpoint "my-tpl") = some ⟨404, "Error 404: \"This service does not exist\""⟩ ∧
    (resourceMeInstallationTemplateDelete ⟨forgetfulClient⟩ scenarioData
      (resourceMeInstallationTemplateDelete ⟨forgetfulClient⟩ scenarioData []).2.2).1 =
      some ("Error calling DELETE /me/installationTemplate/my-tpl: "
        ++ "Error 404: \"This service does not exist\" \n") := by
  decide

theorem infix_getMessage (a p b c e : String) : p.data <:+: (a ++ p ++ b ++ c ++ e).data :=
  ⟨a.data, (b ++ c ++ e).data, by simp [String.data_append]⟩

theorem infix_optsMessage (a p b c e f : String) :
    p.data <:+: (a ++ p ++ b ++ c ++ e ++ f).data :=
  ⟨a.data, (b ++ c ++ e ++ f).data, by simp [String.data_append]⟩

theorem propagates_none (calls : Log) (h : ∀ e ∈ calls, e.failed = false) :
    Propagates none calls := by
  refine ⟨⟨fun hn => absurd rfl hn, ?_⟩, fun msg hmsg => by cases hmsg⟩
  rintro ⟨e, he, hf⟩
  rw [h e he] at hf
  cases hf

theorem propagates_some (before : Log) (m : Method) (p : String) (b : Option Body)
    (err : ClientError) (msg : String) (hbefore : ∀ x ∈ before, x.failed = false)
    (hmsg : p.data <:+: msg.data) :
    Propagates (some msg) (before ++ [errEvent m p b err]) := by
  refine ⟨⟨fun _ => ⟨errEvent m p b err, by simp, rfl⟩, fun _ => by simp⟩, ?_⟩
  intro msg2 h
  cases h
  exact ⟨before, errEvent m p b err, rfl, rfl, hbefore, hmsg⟩

theorem read_propagates (config : Config) (d : ResourceData) (log : Log) :
    Propagates (resourceMeInstallationTemplateRead config d log).1
      (issued log (resourceMeInstallationTemplateRead config d log).2.2) := by
  cases hget : config.OVHClient.GetTemplate log (templateEndpoint d.id) with
  | error err =>
    rw [read_error config d log err hget]
    simpa [issued_append] using propagates_some [] .GET (templateEndpoint d.id) none err _
      (by simp) (infix_getMessage _ _ _ _ _)
  | ok t =>
    rw [read_ok config d log t hget]
    simpa [issued_append] using propagates_none [templateEvent (templateEndpoint d.id) t]
      (by simp [failed_templateEvent])

/-- Read after a run of successful calls keeps the policy for the whole run. -/
theorem read_propagates_after (config : Config) (d : ResourceData) (log before : Log)
    (hbefore : ∀ x ∈ before, x.failed = false) :
    Propagates (resourceMeInstallationTemplateRead config d (log ++ before)).1
      (issued log (resourceMeInstallationTemplateRead config d (log ++ before)).2.2) := by
  cases hget : config.OVHClient.GetTemplate (log ++ before) (templateEndpoint d.id) with
  | error err =>
    rw [read_error config d _ err hget]
    simpa [issued, List.append_assoc] using propagates_some before .GET (templateEndpoint d.id)
      none err _ hbefore (infix_getMessage _ _ _ _ _)
  | ok t =>
    rw [read_ok config d _ t hget]
    simpa [issued, List.append_assoc] using
      propagates_none (before ++ [templateEvent (templateEndpoint d.id) t]) (by
        intro e he
        rcases List.mem_append.1 he with h | h
        · exact hbefore e h
        · simp at h; rw [h]; rfl)

theorem update_put_error (fmt : Fmt) (config : Config) (d : ResourceData) (log : Log)
    (err : ClientError)
    (h : config.OVHClient.Put log (templateEndpoint d.id)
      (InstallationTemplateUpdateOpts.FromResource d) = some err) :
    resourceMeInstallationTemplateUpdate fmt config d log =
      (some ("Error calling PUT " ++ templateEndpoint d.id ++ " with opts "
        ++ fmt.v (InstallationTemplateUpdateOpts.FromResource d) ++ ":\n\t " ++ fmt.q err), d,
        log ++ [errEvent .PUT (templateEndpoint d.id)
          (some (InstallationTemplateUpdateOpts.FromResource d)) err]) := by
  simp [resourceMeInstallationTemplateUpdate, Client.put, ResourceData.Id, h, replyOfError,
    errEvent]

theorem update_after_put (fmt : Fmt) (config : Config) (d : ResourceData) (log : Log)
    (h : config.OVHClient.Put log (templateEndpoint d.id)
      (InstallationTemplateUpdateOpts.FromResource d) = none) :
    resourceMeInstallationTemplateUpdate fmt config d log =
      resourceMeInstallationTemplateRead config d
        (log ++ [okEvent .PUT (templateEndpoint d.id)
          (some (InstallationTemplateUpdateOpts.FromResource d))]) := by
  simp [resourceMeInstallationTemplateUpdate, Client.put, ResourceData.Id, h, replyOfError,
    okEvent]

theorem delete_error (config : Config) (d : ResourceData) (log : Log) (err : ClientError)
    (h : config.OVHClient.Delete log (templateEndpoint (templateName d)) = some err) :
    resourceMeInstallationTemplateDelete config d log =
      (some ("Error calling DELETE " ++ templateEndpoint (templateName d) ++ ": " ++ err.text
        ++ " \n"), d, log ++ [errEvent .DELETE (templateEndpoint (templateName d)) none err]) := by
  have h2 : config.OVHClient.Delete log (templateEndpoint (asString (d.Get "template_name")))
    = some err := h
  simp [resourceMeInstallationTemplateDelete, Client.delete, h2, templateName, replyOfError,
    errEvent]

theorem delete_ok (config : Config) (d : ResourceData) (log : Log)
    (h : config.OVHClient.Delete log (templateEndpoint (templateName d)) = none) :
    resourceMeInstallationTemplateDelete config d log =
      (none, d, log ++ [okEvent .DELETE (templateEndpoint (templateName d)) none]) := by
  have h2 : config.OVHClient.Delete log (templateEndpoint (asString (d.Get "template_name")))
    = none := h
  simp [resourceMeInstallationTemplateDelete, Client.delete, h2, templateName, replyOfError,
    okEvent]

theorem create_propagates (fmt : Fmt) (config : Config) (d : ResourceData) (log : Log) :
    Propagates (resourceMeInstallationTemplateCreate fmt config d log).1
      (issued log (resourceMeInstallationTemplateCreate fmt config d log).2.2) := by
  cases hpost : config.OVHClient.Post log "/me/installationTemplate"
      (InstallationTemplateCreateOpts.FromResource d) with
  | some err =>
    rw [create_post_error fmt config d log err hpost]
    simpa only [issued_append, List.nil_append] using propagates_some [] .POST
      "/me/installationTemplate" (some (InstallationTemplateCreateOpts.FromResource d)) err _
      (by simp) (infix_optsMessage _ _ _ _ _ _)
  | none =>
    cases hput : config.OVHClient.Put (log ++ [createPost d]) (templateEndpoint (templateName d))
        (InstallationTemplateUpdateOpts.FromResource d) with
    | some err =>
      obtain ⟨h1, h2⟩ := create_put_error fmt config d log err hpost hput
      rw [h1, h2]
      simpa [issued_append] using propagates_some [createPost d] .PUT
        (templateEndpoint (templateName d))
        (some (InstallationTemplateUpdateOpts.FromResource d)) err _
        (by simp [createPost, failed_okEvent]) (infix_optsMessage _ _ _ _ _ _)
    | none =>
      rw [create_after_put fmt config d log hpost hput]
      cases hf : removeDefaults d with
      | false =>
        simp only [Bool.false_eq_true, if_false]
        exact read_propagates_after config _ log [createPost d, createPut d]
          (by simp [createPost, createPut, failed_okEvent])
      | true =>
        simp only [if_true]
        cases hlist : config.OVHClient.GetStrings (log ++ [createPost d, createPut d])
            (partitionSchemeListEndpoint (templateName d)) with
        | error err =>
          rw [getPartitionSchemeIds_error _ _ _ err hlist]
          simpa [issued, List.append_assoc] using propagates_some [createPost d, createPut d]
            .GET (partitionSchemeListEndpoint (templateName d)) none err _
            (by simp [createPost, createPut, failed_okEvent]) (infix_getMessage _ _ _ _ _)
        | ok schemes =>
          rw [getPartitionSchemeIds_ok _ _ _ schemes hlist]
          rcases deleteDefaultSchemes_cases config.OVHClient (templateName d) schemes
            (log ++ [createPost d, createPut d] ++
              [namesEvent (partitionSchemeListEndpoint (templateName d)) schemes]) with
            hdel | ⟨pre, s, post, err, _, hdel⟩
          · simp only [hdel]
            have := read_propagates_after config (createState d) log
              ([createPost d, createPut d,
                namesEvent (partitionSchemeListEndpoint (templateName d)) schemes] ++
                schemes.map (schemeDelete (templateName d)))
              (by
                intro x hx
                simp at hx
                rcases hx with rfl | rfl | rfl | ⟨a, _, rfl⟩ <;> rfl)
            simpa [List.append_assoc] using this
          · simp only [hdel]
            have := propagates_some
              ([createPost d, createPut d,
                namesEvent (partitionSchemeListEndpoint (templateName d)) schemes] ++
                pre.map (schemeDelete (templateName d)))
              .DELETE (partitionSchemeEndpoint (templateName d) s) none err
              ("Error calling DELETE " ++ partitionSchemeEndpoint (templateName d) s ++ ": "
                ++ err.text ++ " \n")
              (by
                intro x hx
                simp at hx
                rcases hx with rfl | rfl | rfl | ⟨a, _, rfl⟩ <;> rfl)
              (infix_getMessage _ _ _ _ _)
            simpa [issued, List.append_assoc] using this

/-- C5: each of Create, Read, Update and Delete returns an error exactly when
one of the calls it issued failed; the failed call is then the last call
issued, every call before it succeeded, and the returned message contains the
endpoint path of the failed call. -/
theorem failure_propagation (fmt : Fmt) (config : Config) (d : ResourceData) (log : Log) :
    Propagates (resourceMeInstallationTemplateCreate fmt config d log).1
      (issued log (resourceMeInstallationTemplateCreate fmt config d log).2.2) ∧
    Propagates (resourceMeInstallationTemplateRead config d log).1
      (issued log (resourceMeInstallationTemplateRead config d log).2.2) ∧
    Propagates (resourceMeInstallationTemplateUpdate fmt config d log).1
      (issued log (resourceMeInstallationTemplateUpdate fmt config d log).2.2) ∧
    Propagates (resourceMeInstallationTemplateDelete config d log).1
      (issued log (resourceMeInstallationTemplateDelete config d log).2.2) := by
  refine ⟨create_propagates fmt config d log, read_propagates config d log, ?_, ?_⟩
  · cases hput : config.OVHClient.Put log (templateEndpoint d.id)
        (InstallationTemplateUpdateOpts.FromResource d) with
    | some err =>
      rw [update_put_error fmt config d log err hput]
      simpa [issued_append] using propagates_some [] .PUT (templateEndpoint d.id)
        (some (InstallationTemplateUpdateOpts.FromResource d)) err _ (by simp)
        (infix_optsMessage _ _ _ _ _ _)
    | none =>
      rw [update_after_put fmt config d log hput]
      exact read_propagates_after config d log _ (by simp [failed_okEvent])
  · cases hdel : config.OVHClient.Delete log (templateEndpoint (templateName d)) with
    | some err =>
      rw [delete_error config d log err hdel]
      simpa [issued_append] using propagates_some [] .DELETE
        (templateEndpoint (templateName d)) none err _ (by simp) (infix_getMessage _ _ _ _ _)
    | none =>
      rw [delete_ok config d log hdel]
      simpa [issued_append] using propagates_none
        [okEvent .DELETE (templateEndpoint (templateName d)) none] (by simp [failed_okEvent])

theorem find_eq_none_of_not_mem (l : List (String × Value)) (k : String)
    (h : k ∉ l.map Prod.fst) : l.find? (fun kv => kv.1 == k) = none := by
  induction l with
  | nil => rfl
  | cons kv rest ih =>
    simp only [List.map_cons, List.mem_cons, not_or] at h
    have hne : (kv.1 == k) = false := by simpa using fun e => h.1 e.symm
    simp [List.find?, hne, ih h.2]

/-- Writing a map with distinct keys into the fields: a key of the map reads
as its value when the schema accepts the pair, every other key is
untouched. -/
theorem foldl_set_fields (schema : Schema) (l : List (String × Value))
    (hl : (l.map Prod.fst).Nodup) (d : ResourceData) (k : String) :
    (l.foldl (fun d kv => d.Set schema kv.1 kv.2) d).fields k =
      match (l.find? (fun kv => kv.1 == k)).map Prod.snd with
      | some v => if schema.accepts k v then some v else d.fields k
      | none => d.fields k := by
  induction l generalizing d with
  | nil => rfl
  | cons kv rest ih =>
    simp only [List.map_cons, List.nodup_cons] at hl
    rw [List.foldl_cons, ih hl.2]
    by_cases hk : kv.1 = k
    · subst hk
      cases ha : schema.accepts kv.1 kv.2 <;>
        simp [List.find?, find_eq_none_of_not_mem rest kv.1 hl.1, ResourceData.Set, ha]
    · have hne : (kv.1 == k) = false := by simpa using hk
      have hne2 : ¬ k = kv.1 := fun e => hk e.symm
      cases ha : schema.accepts kv.1 kv.2 <;>
        simp [List.find?, hne, ResourceData.Set, hne2, ha]

theorem lookup_of_mem (m : GoMap) (kv : String × Value) (h : kv ∈ m.entries) :
    m.lookup kv.1 = some kv.2 := by
  obtain ⟨l, hl⟩ := m
  simp only [GoMap.lookup]
  simp only at h
  induction l with
  | nil => cases h
  | cons x rest ih =>
    simp only [List.map_cons, List.nodup_cons] at hl
    rcases List.mem_cons.1 h with rfl | hmem
    · simp [List.find?]
    · have hne : (x.1 == kv.1) = false := by
        have : x.1 ≠ kv.1 := fun e => hl.1 (e ▸ List.mem_map_of_mem Prod.fst hmem)
        simpa using this
      simp only [List.find?, hne]
      exact ih hl.2 hmem

/-- The fields after a successful Read: a key of the flattened template
holds the value of the template when the schema accepts the pair, and its
former value otherwise. -/
theorem read_ok_fields (config : Config) (d : ResourceData) (log : Log)
    (t : InstallationTemplate)
    (h : config.OVHClient.GetTemplate log (templateEndpoint d.id) = .ok t) (k : String) :
    (resourceMeInstallationTemplateRead config d log).2.1.Get k =
      match t.ToMap.lookup k with
      | some v => if installationTemplateSchema.accepts k v then some v else d.Get k
      | none => d.Get k := by
  rw [read_ok config d log t h]
  simp only [ResourceData.Get, ResourceData.SetId, GoMap.lookup]
  exact foldl_set_fields installationTemplateSchema t.ToMap.entries t.ToMap.nodup d k

/-- Read issues exactly one call, the GET of the template named by the
resource ID. If the call fails, Read returns an error and the resource data,
ID and fields, is unchanged. If it succeeds, Read returns no error, the
resource ID is unchanged, every pair of the flattened template that the
schema accepts is in the state, and every other key keeps its value: a pair
whose key is not declared or whose value does not fit the declared type is
refused and the error is dropped. -/
theorem read_contract (config : Config) (d : ResourceData) (log : Log) :
    (issued log (resourceMeInstallationTemplateRead config d log).2.2).map Event.line =
      [(.GET, templateEndpoint d.Id)] ∧
    (∀ err, config.OVHClient.GetTemplate log (templateEndpoint d.Id) = .error err →
      (resourceMeInstallationTemplateRead config d log).1 =
        some ("Error calling GET " ++ templateEndpoint d.Id ++ ": " ++ err.text ++ " \n") ∧
      (resourceMeInstallationTemplateRead config d log).2.1 = d) ∧
    (∀ t, config.OVHClient.GetTemplate log (templateEndpoint d.Id) = .ok t →
      (resourceMeInstallationTemplateRead config d log).1 = none ∧
      (resourceMeInstallationTemplateRead config d log).2.1.Id = d.Id ∧
      (∀ kv ∈ t.ToMap.entries, installationTemplateSchema.accepts kv.1 kv.2 = true →
        (resourceMeInstallationTemplateRead config d log).2.1.Get kv.1 = some kv.2) ∧
      (∀ kv ∈ t.ToMap.entries, installationTemplateSchema.accepts kv.1 kv.2 = false →
        (resourceMeInstallationTemplateRead config d log).2.1.Get kv.1 = d.Get kv.1) ∧
      (∀ k, t.ToMap.lookup k = none →
        (resourceMeInstallationTemplateRead config d log).2.1.Get k = d.Get k)) := by
  refine ⟨?_, ?_, ?_⟩
  · cases hget : config.OVHClient.GetTemplate log (templateEndpoint d.id) with
    | error err =>
      rw [read_error config d log err hget]
      simp [issued_append, Event.line, errEvent, ResourceData.Id]
    | ok t =>
      rw [read_ok config d log t hget]
      simp [issued_append, Event.line, templateEvent, ResourceData.Id]
  · intro err hget
    rw [read_error config d log err hget]
    exact ⟨rfl, rfl⟩
  · intro t hget
    refine ⟨?_, ?_, ?_, ?_, ?_⟩
    · rw [read_ok config d log t hget]
    · rw [read_ok config d log t hget]
      rfl
    · intro kv hkv ha
      rw [read_ok_fields config d log t hget, lookup_of_mem t.ToMap kv hkv]
      simp [ha]
    · intro kv hkv ha
      rw [read_ok_fields config d log t hget, lookup_of_mem t.ToMap kv hkv]
      simp [ha]
    · intro k hk
      rw [read_ok_fields config d log t hget, hk]

/-- C6, the code at the failing input: the GET of `my-tpl` succeeds with a
template that flattens to the category `basic` and the family `linux`. Read
returns no error and the family is in the state, but the pair of `category`
is not: the schema declares `category` as an integer, the write of the string
is refused and Read drops the error. -/
theorem read_drops_category :
    categoryClient.GetTemplate [] (templateEndpoint createdData.Id) = .ok categoryTemplate ∧
    ("category", Value.str "basic") ∈ categoryTemplate.ToMap.entries ∧
    (resourceMeInstallationTemplateRead ⟨categoryClient⟩ createdData []).1 = none ∧
    (resourceMeInstallationTemplateRead ⟨categoryClient⟩ createdData []).2.1.Get "family" =
      some (.str "linux") ∧
    (resourceMeInstallationTemplateRead ⟨categoryClient⟩ createdData []).2.1.Get "category" =
      none :=
  ⟨rfl, by decide, by decide, by decide, by decide⟩

theorem upperhex_ne_slash (n : Nat) : upperhex n ≠ '/' := by
  unfold upperhex
  split <;> decide

theorem shouldEscape_false_bound (b : Nat) (h : shouldEscape b = false) : b ≤ 126 ∧ b ≠ 47 := by
  unfold shouldEscape at h
  split at h
  · omega
  · split at h
    · omega
    · split at h
      · omega
      · cases h

theorem ofNat_ne_slash (b : Nat) (h1 : b ≤ 126) (h2 : b ≠ 47) : Char.ofNat b ≠ '/' := by
  interval_cases b <;> first | exact absurd rfl h2 | decide

theorem escapeByte_no_slash (b : Nat) : '/' ∉ escapeByte b := by
  unfold escapeByte
  cases h : shouldEscape b with
  | true =>
    simp only [if_true, List.mem_cons, List.mem_nil_iff, or_false, not_or]
    exact ⟨by decide, fun e => upperhex_ne_slash _ e.symm, fun e => upperhex_ne_slash _ e.symm⟩
  | false =>
    obtain ⟨h1, h2⟩ := shouldEscape_false_bound b h
    simp only [Bool.false_eq_true, if_false, List.mem_singleton]
    exact fun e => ofNat_ne_slash b h1 h2 e.symm

/-- The escaped text of a segment has no `/`. -/
theorem PathEscape_no_slash (s : String) : '/' ∉ (PathEscape s).data := by
  simp only [PathEscape, List.mem_flatMap, not_exists, not_and]
  intro b _
  exact escapeByte_no_slash b

theorem splitSlash_no_slash (l : List Char) (h : '/' ∉ l) : splitSlash l = [l] := by
  induction l with
  | nil => rfl
  | cons c cs ih =>
    simp only [List.mem_cons, not_or] at h
    have hc : ¬ c = '/' := fun e => h.1 e.symm
    simp [splitSlash, hc, ih h.2]

theorem splitSlash_append (a b : List Char) (h : '/' ∉ a) :
    splitSlash (a ++ '/' :: b) = a :: splitSlash b := by
  induction a with
  | nil => simp [splitSlash]
  | cons c cs ih =>
    simp only [List.mem_cons, not_or] at h
    have hc : ¬ c = '/' := fun e => h.1 e.symm
    simp [splitSlash, hc, ih h.2]

/-- The template endpoint has four segments; only the last is chosen by the
user. -/
theorem pathSegments_templateEndpoint (name : String) :
    pathSegments (templateEndpoint name) = ["", "me", "installationTemplate", PathEscape name] := by
  have h : (templateEndpoint name).data =
      [] ++ '/' :: ("me".data ++ '/' :: ("installationTemplate".data ++ '/' ::
        (PathEscape name).data)) := by
    simp [templateEndpoint, String.data_append]
  simp only [pathSegments, h]
  rw [splitSlash_append _ _ (by simp), splitSlash_append _ _ (by decide),
    splitSlash_append _ _ (by decide), splitSlash_no_slash _ (PathEscape_no_slash name)]
  rfl

theorem pathSegments_partitionSchemeListEndpoint (template : String) :
    pathSegments (partitionSchemeListEndpoint template) =
      ["", "me", "installationTemplate", PathEscape template, "partitionScheme"] := by
  have h : (partitionSchemeListEndpoint template).data =
      [] ++ '/' :: ("me".data ++ '/' :: ("installationTemplate".data ++ '/' ::
        ((PathEscape template).data ++ '/' :: "partitionScheme".data))) := by
    simp [partitionSchemeListEndpoint, String.data_append]
  simp only [pathSegments, h]
  rw [splitSlash_append _ _ (by simp), splitSlash_append _ _ (by decide),
    splitSlash_append _ _ (by decide), splitSlash_append _ _ (PathEscape_no_slash template),
    splitSlash_no_slash _ (by decide)]
  rfl

theorem pathSegments_partitionSchemeEndpoint (template scheme : String) :
    pathSegments (partitionSchemeEndpoint template scheme) =
      ["", "me", "installationTemplate", PathEscape template, "partitionScheme",
        PathEscape scheme] := by
  have h : (partitionSchemeEndpoint template scheme).data =
      [] ++ '/' :: ("me".data ++ '/' :: ("installationTemplate".data ++ '/' ::
        ((PathEscape template).data ++ '/' :: ("partitionScheme".data ++ '/' ::
          (PathEscape scheme).data)))) := by
    simp [partitionSchemeEndpoint, String.data_append]
  simp only [pathSegments, h]
  rw [splitSlash_append _ _ (by simp), splitSlash_append _ _ (by decide),
    splitSlash_append _ _ (by decide), splitSlash_append _ _ (PathEscape_no_slash template),
    splitSlash_append _ _ (by decide), splitSlash_no_slash _ (PathEscape_no_slash scheme)]
  rfl

/-- The endpoints that list and address partition schemes have the
`partitionScheme` segment; the template endpoint has not. -/
theorem hasPartitionSchemeSegment_endpoints (template scheme : String) :
    hasPartitionSchemeSegment (partitionSchemeListEndpoint template) = true ∧
    hasPartitionSchemeSegment (partitionSchemeEndpoint template scheme) = true ∧
    hasPartitionSchemeSegment (templateEndpoint template) = false := by
  simp [hasPartitionSchemeSegment, pathSegments_partitionSchemeListEndpoint,
    pathSegments_partitionSchemeEndpoint, pathSegments_templateEndpoint]

theorem read_log (config : Config) (d : ResourceData) (log : Log) :
    ∃ e, (resourceMeInstallationTemplateRead config d log).2.2 = log ++ [e] ∧
      e.line = (.GET, templateEndpoint d.id) := by
  cases hget : config.OVHClient.GetTemplate log (templateEndpoint d.id) with
  | error err =>
    exact ⟨errEvent .GET (templateEndpoint d.id) none err,
      by rw [read_error config d log err hget], rfl⟩
  | ok t =>
    exact ⟨templateEvent (templateEndpoint d.id) t, by rw [read_ok config d log t hget], rfl⟩

/-- After a successful POST the second call of Create is the customization
PUT on the template endpoint. -/
theorem create_second_call (fmt : Fmt) (config : Config) (d : ResourceData) (log : Log)
    (hpost : config.OVHClient.Post log "/me/installationTemplate"
      (InstallationTemplateCreateOpts.FromResource d) = none) :
    ∃ e rest, (resourceMeInstallationTemplateCreate fmt config d log).2.2 =
        log ++ createPost d :: e :: rest ∧
      e.line = (.PUT, templateEndpoint (templateName d)) := by
  cases hput : config.OVHClient.Put (log ++ [createPost d]) (templateEndpoint (templateName d))
      (InstallationTemplateUpdateOpts.FromResource d) with
  | some err =>
    exact ⟨_, [], (create_put_error fmt config d log err hpost hput).2, rfl⟩
  | none =>
    rw [create_after_put fmt config d log hpost hput]
    refine ⟨createPut d, ?_⟩
    cases hf : removeDefaults d with
    | false =>
      simp only [Bool.false_eq_true, if_false]
      obtain ⟨e, he, _⟩ := read_log config (createState d) (log ++ [createPost d, createPut d])
      exact ⟨[e], by simp [he], rfl⟩
    | true =>
      simp only [if_true]
      cases hlist : config.OVHClient.GetStrings (log ++ [createPost d, createPut d])
          (partitionSchemeListEndpoint (templateName d)) with
      | error err =>
        rw [getPartitionSchemeIds_error _ _ _ err hlist]
        exact ⟨[errEvent .GET (partitionSchemeListEndpoint (templateName d)) none err],
          by simp, rfl⟩
      | ok schemes =>
        rw [getPartitionSchemeIds_ok _ _ _ schemes hlist]
        rcases deleteDefaultSchemes_cases config.OVHClient (templateName d) schemes
          (log ++ [createPost d, createPut d] ++
            [namesEvent (partitionSchemeListEndpoint (templateName d)) schemes]) with
          hdel | ⟨pre, s, post, err, _, hdel⟩
        · simp only [hdel]
          obtain ⟨e, he, _⟩ := read_log config (createState d)
            (log ++ [createPost d, createPut d] ++
              [namesEvent (partitionSchemeListEndpoint (templateName d)) schemes] ++
              schemes.map (schemeDelete (templateName d)))
          exact ⟨namesEvent (partitionSchemeListEndpoint (templateName d)) schemes ::
            (schemes.map (schemeDelete (templateName d)) ++ [e]),
            by rw [he]; simp only [List.append_assoc, List.cons_append, List.nil_append], rfl⟩
        · simp only [hdel]
          exact ⟨namesEvent (partitionSchemeListEndpoint (templateName d)) schemes ::
            (pre.map (schemeDelete (templateName d)) ++
              [errEvent .DELETE (partitionSchemeEndpoint (templateName d) s) none err]),
            by simp only [List.append_assoc, List.cons_append, List.nil_append], rfl⟩

/-- C7: Update issues the PUT on the template endpoint of the resource ID and,
only if the PUT succeeds, the GET on the same path, and nothing else; none of
these paths has the `partitionScheme` segment of the partition-scheme
endpoints (the path ends with the escaped name); and when the resource ID
equals `template_name`, the PUT path is the path of the customization PUT of
Create. -/
theorem update_calls (fmt : Fmt) (config : Config) (d : ResourceData) (log : Log) :
    (issued log (resourceMeInstallationTemplateUpdate fmt config d log).2.2).map Event.line =
      (if config.OVHClient.Put log (templateEndpoint d.Id)
          (InstallationTemplateUpdateOpts.FromResource d) = none
        then [(.PUT, templateEndpoint d.Id), (.GET, templateEndpoint d.Id)]
        else [(.PUT, templateEndpoint d.Id)]) ∧
    (∀ e ∈ issued log (resourceMeInstallationTemplateUpdate fmt config d log).2.2,
      hasPartitionSchemeSegment e.call.path = false ∧
      pathSegments e.call.path = ["", "me", "installationTemplate", PathEscape d.Id]) ∧
    (d.Id = templateName d →
      ∀ log2, config.OVHClient.Post log2 "/me/installationTemplate"
          (InstallationTemplateCreateOpts.FromResource d) = none →
        ((issued log2 (resourceMeInstallationTemplateCreate fmt config d log2).2.2).map
          Event.line)[1]? =
        ((issued log (resourceMeInstallationTemplateUpdate fmt config d log).2.2).map
          Event.line)[0]?) := by
  have hlines : ∃ evs, issued log (resourceMeInstallationTemplateUpdate fmt config d log).2.2
        = evs ∧
      evs.map Event.line = (if config.OVHClient.Put log (templateEndpoint d.Id)
          (InstallationTemplateUpdateOpts.FromResource d) = none
        then [(.PUT, templateEndpoint d.Id), (.GET, templateEndpoint d.Id)]
        else [(.PUT, templateEndpoint d.Id)]) := by
    cases hput : config.OVHClient.Put log (templateEndpoint d.id)
        (InstallationTemplateUpdateOpts.FromResource d) with
    | some err =>
      rw [update_put_error fmt config d log err hput]
      refine ⟨_, issued_append _ _, ?_⟩
      simp [ResourceData.Id, hput, Event.line, errEvent]
    | none =>
      rw [update_after_put fmt config d log hput]
      obtain ⟨e, he, hline⟩ := read_log config d
        (log ++ [okEvent .PUT (templateEndpoint d.id)
          (some (InstallationTemplateUpdateOpts.FromResource d))])
      rw [he]
      refine ⟨[okEvent .PUT (templateEndpoint d.id)
        (some (InstallationTemplateUpdateOpts.FromResource d)), e], by simp [issued], ?_⟩
      simp [ResourceData.Id, hput, hline]
      rfl
  obtain ⟨evs, hevs, hmap⟩ := hlines
  rw [hevs]
  refine ⟨hmap, ?_, ?_⟩
  · intro e he
    have hpath : e.call.path = templateEndpoint d.Id := by
      have hmem : e.line ∈ evs.map Event.line := List.mem_map_of_mem _ he
      rw [hmap] at hmem
      have h2 : e.line.2 = templateEndpoint d.Id := by
        split at hmem
        · rcases List.mem_cons.1 hmem with h | h
          · rw [h]
          · rcases List.mem_cons.1 h with h | h
            · rw [h]
            · cases h
        · rcases List.mem_cons.1 hmem with h | h
          · rw [h]
          · cases h
      exact h2
    rw [hpath]
    exact ⟨(hasPartitionSchemeSegment_endpoints d.Id d.Id).2.2, pathSegments_templateEndpoint d.Id⟩
  · intro hid log2 hpost
    obtain ⟨e, rest, hlog, hline⟩ := create_second_call fmt config d log2 hpost
    rw [hlog, hmap]
    have h1 : ((issued log2 (log2 ++ createPost d :: e :: rest)).map Event.line)[1]? =
        some (.PUT, templateEndpoint (templateName d)) := by
      simp [issued, hline]
    rw [h1, hid]
    split <;> rfl

theorem update_calls_witness :
    createdData.Id = templateName createdData ∧
    ((issued [] (resourceMeInstallationTemplateCreate scenarioFmt ⟨scenarioClient⟩
      createdData []).2.2).map Event.line)[1]? =
    ((issued [] (resourceMeInstallationTemplateUpdate scenarioFmt ⟨scenarioClient⟩
      createdData []).2.2).map Event.line)[0]? :=
  ⟨rfl, (update_calls scenarioFmt ⟨scenarioClient⟩ createdData []).2.2 rfl [] rfl⟩

/-- When every call of Create succeeds, Create ends in a successful Read of
the state it built. -/
theorem create_all_ok (fmt : Fmt) (config : Config) (d : ResourceData) (log : Log)
    (hok : ∀ e ∈ issued log (resourceMeInstallationTemplateCreate fmt config d log).2.2,
      e.failed = false) :
    ∃ log1 t, config.OVHClient.GetTemplate log1 (templateEndpoint (createState d).id) = .ok t ∧
      resourceMeInstallationTemplateCreate fmt config d log =
        resourceMeInstallationTemplateRead config (createState d) log1 := by
  cases hpost : config.OVHClient.Post log "/me/installationTemplate"
      (InstallationTemplateCreateOpts.FromResource d) with
  | some err =>
    rw [create_post_error fmt config d log err hpost] at hok
    exact absurd (hok (errEvent .POST "/me/installationTemplate"
      (some (InstallationTemplateCreateOpts.FromResource d)) err) (by simp [issued_append]))
      (by simp [failed_errEvent])
  | none =>
    cases hput : config.OVHClient.Put (log ++ [createPost d]) (templateEndpoint (templateName d))
        (InstallationTemplateUpdateOpts.FromResource d) with
    | some err =>
      rw [(create_put_error fmt config d log err hpost hput).2] at hok
      exact absurd (hok (errEvent .PUT (templateEndpoint (templateName d))
        (some (InstallationTemplateUpdateOpts.FromResource d)) err) (by simp [issued_append]))
        (by simp [failed_errEvent])
    | none =>
      rw [create_after_put fmt config d log hpost hput] at hok ⊢
      cases hf : removeDefaults d with
      | false =>
        simp only [hf, Bool.false_eq_true, if_false] at hok ⊢
        cases hget : config.OVHClient.GetTemplate (log ++ [createPost d, createPut d])
            (templateEndpoint (createState d).id) with
        | error err =>
          rw [read_error config _ _ err hget] at hok
          exact absurd (hok (errEvent .GET (templateEndpoint (createState d).id) none err)
            (by simp [issued, List.append_assoc])) (by simp [failed_errEvent])
        | ok t => exact ⟨_, t, hget, rfl⟩
      | true =>
        simp only [hf, if_true] at hok ⊢
        cases hlist : config.OVHClient.GetStrings (log ++ [createPost d, createPut d])
            (partitionSchemeListEndpoint (templateName d)) with
        | error err =>
          rw [getPartitionSchemeIds_error _ _ _ err hlist] at hok
          exact absurd (hok (errEvent .GET (partitionSchemeListEndpoint (templateName d)) none
            err) (by simp [issued, List.append_assoc])) (by simp [failed_errEvent])
        | ok schemes =>
          rw [getPartitionSchemeIds_ok _ _ _ schemes hlist] at hok ⊢
          rcases deleteDefaultSchemes_cases config.OVHClient (templateName d) schemes
            (log ++ [createPost d, createPut d] ++
              [namesEvent (partitionSchemeListEndpoint (templateName d)) schemes]) with
            hdel | ⟨pre, s, post, err, _, hdel⟩
          · simp only [hdel] at hok ⊢
            cases hget : config.OVHClient.GetTemplate
                (log ++ [createPost d, createPut d] ++
                  [namesEvent (partitionSchemeListEndpoint (templateName d)) schemes] ++
                  schemes.map (schemeDelete (templateName d)))
                (templateEndpoint (createState d).id) with
            | error err =>
              rw [read_error config _ _ err hget] at hok
              exact absurd (hok (errEvent .GET (templateEndpoint (createState d).id) none err)
                (by simp [issued, List.append_assoc])) (by simp [failed_errEvent])
            | ok t => exact ⟨_, t, hget, rfl⟩
          · simp only [hdel] at hok
            exact absurd (hok (errEvent .DELETE (partitionSchemeEndpoint (templateName d) s)
              none err) (by simp [issued, List.append_assoc])) (by simp [failed_errEvent])

theorem createState_get (d : ResourceData) (k : String) (hk : k ∈ identityFields) :
    (createState d).Get k = d.Get k := by
  have hne : k ≠ "remove_default_partitions" := by
    rintro rfl
    revert hk
    decide
  simp [createState, ResourceData.Get, hne]

theorem match_lookup_of_echoes (t : InstallationTemplate) (d : ResourceData) (k : String)
    (x : Option Value) (hx : x = d.Get k) (h : Echoes t d k) :
    (match t.ToMap.lookup k with
      | some v => if installationTemplateSchema.accepts k v then some v else x
      | none => x) = d.Get k := by
  cases hl : t.ToMap.lookup k with
  | none => exact hx
  | some v =>
    cases ha : installationTemplateSchema.accepts k v
    · simpa [ha] using hx
    · simpa [ha] using (h v hl).symm

/-- C8, as the code behaves: when every call of Create succeeds, Create
returns no error and the resource ID is the input `template_name`; each of
`template_name`, `base_template_name` and `default_language` then holds the
value that the template of the final GET carries for it when the schema
accepts that value, and the input value when the template carries none or one
that the schema refuses, so the identity fields equal the input whenever the
service echoes them. A later successful Read keeps the ID and, on the same
condition for its own response, the identity fields. -/
theorem create_identity (fmt : Fmt) (config : Config) (d : ResourceData) (log : Log)
    (hok : ∀ e ∈ issued log (resourceMeInstallationTemplateCreate fmt config d log).2.2,
      e.failed = false) :
    (resourceMeInstallationTemplateCreate fmt config d log).1 = none ∧
    (resourceMeInstallationTemplateCreate fmt config d log).2.1.Id = templateName d ∧
    (∃ t, (resourceMeInstallationTemplateCreate fmt config d log).2.2.getLast? =
        some (templateEvent (templateEndpoint (templateName d)) t) ∧
      ∀ k ∈ identityFields,
        (resourceMeInstallationTemplateCreate fmt config d log).2.1.Get k =
          (match t.ToMap.lookup k with
            | some v => if installationTemplateSchema.accepts k v then some v else d.Get k
            | none => d.Get k) ∧
        (Echoes t d k →
          (resourceMeInstallationTemplateCreate fmt config d log).2.1.Get k = d.Get k)) ∧
    (∀ (config2 : Config) (log2 : Log) (t2 : InstallationTemplate),
      config2.OVHClient.GetTemplate log2 (templateEndpoint (templateName d)) = .ok t2 →
      (resourceMeInstallationTemplateRead config2
        (resourceMeInstallationTemplateCreate fmt config d log).2.1 log2).2.1.Id
        = templateName d ∧
      ∀ k ∈ identityFields,
        (resourceMeInstallationTemplateCreate fmt config d log).2.1.Get k = d.Get k →
        Echoes t2 d k →
        (resourceMeInstallationTemplateRead config2
          (resourceMeInstallationTemplateCreate fmt config d log).2.1 log2).2.1.Get k
          = d.Get k) := by
  obtain ⟨log1, t, hget, hrun⟩ := create_all_ok fmt config d log hok
  have hid : (resourceMeInstallationTemplateCreate fmt config d log).2.1.id = templateName d := by
    rw [hrun, read_ok config _ _ t hget]
    rfl
  have hfields : ∀ k ∈ identityFields,
      (resourceMeInstallationTemplateCreate fmt config d log).2.1.Get k =
        (match t.ToMap.lookup k with
          | some v => if installationTemplateSchema.accepts k v then some v else d.Get k
          | none => d.Get k) := by
    intro k hk
    rw [hrun, read_ok_fields config _ _ t hget, createState_get d k hk]
  refine ⟨?_, hid, ⟨t, ?_, ?_⟩, ?_⟩
  · rw [hrun, read_ok config _ _ t hget]
  · rw [hrun, read_ok config _ _ t hget]
    simp [createState_id]
  · intro k hk
    refine ⟨hfields k hk, fun he => ?_⟩
    rw [hfields k hk]
    exact match_lookup_of_echoes t d k _ rfl he
  · intro config2 log2 t2 hget2
    have hget3 : config2.OVHClient.GetTemplate log2
        (templateEndpoint (resourceMeInstallationTemplateCreate fmt config d log).2.1.id)
        = .ok t2 := by rw [hid]; exact hget2
    refine ⟨?_, ?_⟩
    · rw [read_ok config2 _ _ t2 hget3]
      exact hid
    · intro k _ hprev he
      rw [read_ok_fields config2 _ _ t2 hget3]
      exact match_lookup_of_echoes t2 d k _ hprev he

theorem create_identity_witness :
    (resourceMeInstallationTemplateCreate scenarioFmt ⟨scenarioClient⟩ scenarioData []).2.1.Id
      = "my-tpl" :=
  (create_identity scenarioFmt ⟨scenarioClient⟩ scenarioData [] (by decide)).2.1

/-- C8, the claim refuted: on a service whose calls all succeed and that
describes the created template under another name, Create returns no error and
the state field `template_name` differs from the input. -/
theorem create_identity_counterexample :
    (∀ e ∈ issued [] (resourceMeInstallationTemplateCreate scenarioFmt ⟨renamingClient⟩
      scenarioData []).2.2, e.failed = false) ∧
    (resourceMeInstallationTemplateCreate scenarioFmt ⟨renamingClient⟩ scenarioData []).1
      = none ∧
    scenarioData.Get "template_name" = some (.str "my-tpl") ∧
    (resourceMeInstallationTemplateCreate scenarioFmt ⟨renamingClient⟩
      scenarioData []).2.1.Get "template_name" = some (.str "MY-TPL") := by
  decide

theorem span_no_slash (l : List Char) (h : '/' ∉ l) :
    l.span (fun c => c != '/') = (l, []) := by
  rw [List.span_eq_take_drop]
  have hall : ∀ c ∈ l, (c != '/') = true := fun c hc => by
    simpa using fun e : c = '/' => h (e ▸ hc)
  rw [List.takeWhile_eq_self_iff.2 hall, List.dropWhile_eq_nil_iff.2 hall]

theorem span_first_slash (a b : List Char) (h : '/' ∉ a) :
    (a ++ '/' :: b).span (fun c => c != '/') = (a, '/' :: b) := by
  rw [List.span_eq_take_drop]
  induction a with
  | nil => simp [List.takeWhile, List.dropWhile]
  | cons c cs ih =>
    simp only [List.mem_cons, not_or] at h
    have hc : (c != '/') = true := by simpa using fun e : c = '/' => h.1 e.symm
    have := ih h.2
    simp only [Prod.mk.injEq] at this
    simp [List.takeWhile, List.dropWhile, hc, this.1, this.2]

theorem splitN2_no_slash (s : String) (h : '/' ∉ s.data) : splitN2 s = [s] := by
  unfold splitN2
  rw [span_no_slash s.data h]

theorem splitN2_first_slash (base name : String) (h : '/' ∉ base.data) :
    splitN2 (base ++ "/" ++ name) = [base, name] := by
  have hd : (base ++ "/" ++ name).data = base.data ++ '/' :: name.data := by
    simp [String.data_append]
  unfold splitN2
  rw [hd, span_first_slash base.data name.data h]

/-- C9, as the code behaves: the importer rejects an identifier without `/`,
a template name alone included, and leaves the resource data as it was; it
accepts `base/name`, split at the first `/`, and sets the resource ID and
`template_name` to `name` and `base_template_name` to `base`. -/
theorem import_requires_base (d : ResourceData) :
    ('/' ∉ d.Id.data →
      resourceMeInstallationTemplateImportState d =
        (.error "Import Id is not base_template_name/template_name formatted", d)) ∧
    (∀ base name : String, d.Id = base ++ "/" ++ name → '/' ∉ base.data →
      (resourceMeInstallationTemplateImportState d).1 =
        .ok [((d.SetId name).Set installationTemplateSchema "base_template_name" (.str base)).Set
          installationTemplateSchema "template_name" (.str name)]) := by
  constructor
  · intro h
    simp [resourceMeInstallationTemplateImportState, splitN2_no_slash d.Id h]
  · intro base name hid h
    simp [resourceMeInstallationTemplateImportState, hid, splitN2_first_slash base name h]

theorem import_requires_base_witness :
    importData.Id = "ubuntu2004" ++ "/" ++ "my-tpl" ∧ '/' ∉ "ubuntu2004".data ∧
    (resourceMeInstallationTemplateImportState importData).1 =
      .ok [((importData.SetId "my-tpl").Set installationTemplateSchema "base_template_name"
        (.str "ubuntu2004")).Set installationTemplateSchema "template_name" (.str "my-tpl")] :=
  ⟨by decide, by decide,
    (import_requires_base importData).2 "ubuntu2004" "my-tpl" (by decide) (by decide)⟩

/-- C9, the claim refuted: the identifier `my-tpl`, a template name alone, is
not accepted; the importer returns an error. -/
theorem import_name_alone_rejected :
    '/' ∉ nameOnlyData.Id.data ∧
    (resourceMeInstallationTemplateImportState nameOnlyData).1 =
      .error "Import Id is not base_template_name/template_name formatted" :=
  ⟨by decide, rfl⟩

theorem rangeFetch_run {α : Type} (fetch : String → Log → Except String α × Log)
    (names : List String) (log : Log) (xs : List α) (log2 : Log)
    (h : FetchRun fetch names log xs log2) (acc : List α) :
    rangeFetch fetch names acc log = (.ok (acc ++ xs), log2) := by
  induction h generalizing acc with
  | nil log => simp [rangeFetch]
  | cons hfetch _ ih => simp [rangeFetch, hfetch, ih]

theorem rangeFetch_fail {α : Type} (fetch : String → Log → Except String α × Log)
    (names : List String) (log : Log) (err : String) (log2 : Log)
    (h : FetchFail fetch names log err log2) (acc : List α) :
    rangeFetch fetch names acc log = (.error err, log2) := by
  induction h generalizing acc with
  | here hfetch => simp [rangeFetch, hfetch]
  | later hfetch _ ih => simp [rangeFetch, hfetch, ih]

/-- The loop terminates in one of the two ways. -/
theorem fetch_total {α : Type} (fetch : String → Log → Except String α × Log)
    (names : List String) (log : Log) :
    (∃ xs log2, FetchRun fetch names log xs log2) ∨
    (∃ err log2, FetchFail fetch names log err log2) := by
  induction names generalizing log with
  | nil => exact Or.inl ⟨[], log, FetchRun.nil log⟩
  | cons n names ih =>
    rcases hf : fetch n log with ⟨r, log1⟩
    cases r with
    | error err => exact Or.inr ⟨err, log1, FetchFail.here hf⟩
    | ok x =>
      rcases ih log1 with ⟨xs, log2, h⟩ | ⟨err, log2, h⟩
      · exact Or.inl ⟨x :: xs, log2, FetchRun.cons hf h⟩
      · exact Or.inr ⟨err, log2, FetchFail.later hf h⟩

theorem fetchRun_length {α : Type} (fetch : String → Log → Except String α × Log)
    (names : List String) (log : Log) (xs : List α) (log2 : Log)
    (h : FetchRun fetch names log xs log2) : xs.length = names.length := by
  induction h with
  | nil log => rfl
  | cons _ _ ih => simp [ih]

theorem rangeFetch_allOrNothing {α : Type} (fetch : String → Log → Except String α × Log)
    (names : List String) (log : Log) :
    AllOrNothing fetch names log (rangeFetch fetch names [] log) := by
  have hrun : ∀ xs log2, FetchRun fetch names log xs log2 →
      rangeFetch fetch names [] log = (.ok xs, log2) := fun xs log2 h => by
    simpa using rangeFetch_run fetch names log xs log2 h []
  have hfail : ∀ err log2, FetchFail fetch names log err log2 →
      rangeFetch fetch names [] log = (.error err, log2) := fun err log2 h =>
    rangeFetch_fail fetch names log err log2 h []
  refine ⟨hrun, hfail, ?_, ?_⟩
  · intro xs hxs
    rcases fetch_total fetch names log with ⟨ys, log2, h⟩ | ⟨err, log2, h⟩
    · rw [hrun ys log2 h] at hxs ⊢
      have hys : ys = xs := by simpa using hxs
      subst hys
      exact ⟨fetchRun_length fetch names log ys log2 h, h⟩
    · rw [hfail err log2 h] at hxs
      cases hxs
  · intro err herr
    rcases fetch_total fetch names log with ⟨ys, log2, h⟩ | ⟨err2, log2, h⟩
    · rw [hrun ys log2 h] at herr
      cases herr
    · rw [hfail err2 log2 h] at herr ⊢
      have he : err2 = err := by simpa using herr
      subst he
      exact h

/-- C10: each of getPartitionSchemes, getPartitionSchemePartitions and
getPartitionSchemeHardwareRaids returns the error of the list call when the
list call fails, and otherwise is all or nothing over the listed names: the
complete list, one fetched object per name in the listed order, exactly when
every per-name fetch succeeds, and the error of the failing fetch, without
any list, otherwise. -/
theorem expansion_all_or_nothing {PartitionScheme Partition HardwareRaid : Type}
    (getPartitionScheme : String → String → Client → Log → Except String PartitionScheme × Log)
    (getPartitionSchemePartition :
      String → String → String → Client → Log → Except String Partition × Log)
    (getPartitionSchemeHardwareRaid :
      String → String → String → Client → Log → Except String HardwareRaid × Log)
    (template scheme : String) (client : Client) (log : Log) :
    (match client.GetStrings log (partitionSchemeListEndpoint template) with
      | .error err =>
        getPartitionSchemes getPartitionScheme template client log =
          (.error ("Error calling GET " ++ partitionSchemeListEndpoint template ++ ": "
            ++ err.text ++ " \n"),
            log ++ [errEvent .GET (partitionSchemeListEndpoint template) none err])
      | .ok names =>
        AllOrNothing (fun s l => getPartitionScheme template s client l) names
          (log ++ [namesEvent (partitionSchemeListEndpoint template) names])
          (getPartitionSchemes getPartitionScheme template client log)) ∧
    (match client.GetStrings log (partitionListEndpoint template scheme) with
      | .error err =>
        getPartitionSchemePartitions getPartitionSchemePartition template scheme client log =
          (.error ("Error calling GET " ++ partitionListEndpoint template scheme ++ ": "
            ++ err.text ++ " \n"),
            log ++ [errEvent .GET (partitionListEndpoint template scheme) none err])
      | .ok names =>
        AllOrNothing (fun m l => getPartitionSchemePartition template scheme m client l) names
          (log ++ [namesEvent (partitionListEndpoint template scheme) names])
          (getPartitionSchemePartitions getPartitionSchemePartition template scheme client
            log)) ∧
    (match client.GetStrings log (hardwareRaidListEndpoint template scheme) with
      | .error err =>
        getPartitionSchemeHardwareRaids getPartitionSchemeHardwareRaid template scheme client
            log =
          (.error ("Error calling GET " ++ hardwareRaidListEndpoint template scheme ++ ": "
            ++ err.text ++ " \n"),
            log ++ [errEvent .GET (hardwareRaidListEndpoint template scheme) none err])
      | .ok names =>
        AllOrNothing (fun n l => getPartitionSchemeHardwareRaid template scheme n client l)
          names (log ++ [namesEvent (hardwareRaidListEndpoint template scheme) names])
          (getPartitionSchemeHardwareRaids getPartitionSchemeHardwareRaid template scheme
            client log)) := by
  refine ⟨?_, ?_, ?_⟩
  · cases h : client.GetStrings log (partitionSchemeListEndpoint template) with
    | error err =>
      simp only [getPartitionSchemes, getPartitionSchemeIds_error template client log err h]
    | ok names =>
      simp only [getPartitionSchemes, getPartitionSchemeIds_ok template client log names h]
      exact rangeFetch_allOrNothing _ names _
  · cases h : client.GetStrings log (partitionListEndpoint template scheme) with
    | error err =>
      simp [getPartitionSchemePartitions, Client.getStrings, h, errEvent, Except.map]
    | ok names =>
      simp only [getPartitionSchemePartitions, Client.getStrings, h, Except.map]
      exact rangeFetch_allOrNothing _ names _
  · cases h : client.GetStrings log (hardwareRaidListEndpoint template scheme) with
    | error err =>
      simp [getPartitionSchemeHardwareRaids, Client.getStrings, h, errEvent, Except.map]
    | ok names =>
      simp only [getPartitionSchemeHardwareRaids, Client.getStrings, h, Except.map]
      exact rangeFetch_allOrNothing _ names _

theorem expansion_all_or_nothing_witness :
    (getPartitionSchemes (fun _ s _ l => echoFetch s l) "my-tpl" scenarioClient []).1 =
      .ok ["default-1", "default-2"] := by
  have h : AllOrNothing (fun s l => echoFetch s l) ["default-1", "default-2"]
      ([] ++ [namesEvent (partitionSchemeListEndpoint "my-tpl") ["default-1", "default-2"]])
      (getPartitionSchemes (fun _ s _ l => echoFetch s l) "my-tpl" scenarioClient []) :=
    (expansion_all_or_nothing (fun _ s _ l => echoFetch s l) (fun _ _ m _ l => echoFetch m l)
      (fun _ _ n _ l => echoFetch n l) "my-tpl" "default-1" scenarioClient []).1
  exact congrArg Prod.fst (h.1 ["default-1", "default-2"] _
    (FetchRun.cons rfl (FetchRun.cons rfl (FetchRun.nil _))))

/-- C11: the validator of `status` reports no error and no warning for
`active` and for `inactive` and exactly one error for every other string,
`enabled` included; it is a function of the value alone, with no client and
no log, so it is decided before any remote call. -/
theorem status_validator (v k : String) :
    ((statusValidateFunc v k).2 = [] ↔ v = "active" ∨ v = "inactive") ∧
    (v ≠ "active" ∧ v ≠ "inactive" → 1 ≤ (statusValidateFunc v k).2.length) ∧
    (statusValidateFunc v k).1 = [] ∧
    (statusValidateFunc "enabled" k).2.length = 1 ∧
    (statusValidateFunc "active" k).2 = [] ∧
    (statusValidateFunc "inactive" k).2 = [] ∧
    (∀ k2, statusValidateFunc v k2 = statusValidateFunc v k) := by
  have hmem : (["active", "inactive"].contains v) = true ↔ v = "active" ∨ v = "inactive" := by
    simp
  refine ⟨?_, ?_, ?_, rfl, rfl, rfl, fun _ => rfl⟩
  · rw [← hmem]
    unfold statusValidateFunc validateStringEnum
    cases h : ["active", "inactive"].contains v <;> simp
  · intro hv
    have hc : (["active", "inactive"].contains v) = false := by
      cases h : ["active", "inactive"].contains v
      · rfl
      · rcases hmem.1 h with h1 | h1
        · exact absurd h1 hv.1
        · exact absurd h1 hv.2
    unfold statusValidateFunc validateStringEnum
    rw [hc]
    simp
  · unfold statusValidateFunc validateStringEnum
    cases h : ["active", "inactive"].contains v <;> simp

theorem status_validator_witness :
    "enabled" ≠ "active" ∧ "enabled" ≠ "inactive" ∧
    1 ≤ (statusValidateFunc "enabled" "status").2.length :=
  ⟨by decide, by decide, (status_validator "enabled" "status").2.1 ⟨by decide, by decide⟩⟩

/-- C17: the validator of the probe `interval` returns an error exactly when
the value is below 30 or above 3600: a value in 30..3600, both bounds
included, yields no error and no warning, and a value outside it yields
exactly one error. -/
theorem interval_validator (v : Int) (k : String) :
    ((probeIntervalValidateFunc v k).2 ≠ [] ↔ v < 30 ∨ v > 3600) ∧
    (30 ≤ v ∧ v ≤ 3600 → probeIntervalValidateFunc v k = ([], [])) ∧
    (v < 30 ∨ v > 3600 → (probeIntervalValidateFunc v k).2.length = 1) ∧
    (probeIntervalValidateFunc v k).1 = [] ∧
    probeIntervalValidateFunc 30 k = ([], []) ∧
    probeIntervalValidateFunc 3600 k = ([], []) := by
  refine ⟨?_, ?_, ?_, ?_, rfl, rfl⟩
  · unfold probeIntervalValidateFunc
    by_cases h : v < 30 ∨ v > 3600 <;> simp [h]
  · intro h
    have hn : ¬ (v < 30 ∨ v > 3600) := by omega
    simp [probeIntervalValidateFunc, hn]
  · intro h
    simp [probeIntervalValidateFunc, h]
  · unfold probeIntervalValidateFunc
    by_cases h : v < 30 ∨ v > 3600 <;> simp [h]

theorem interval_validator_witness :
    (30 : Int) ≤ 3600 ∧ (3600 : Int) ≤ 3600 ∧ (29 : Int) < 30 ∧
    probeIntervalValidateFunc 3600 "interval" = ([], []) ∧
    (probeIntervalValidateFunc 29 "interval").2.length = 1 :=
  ⟨by decide, by decide, by decide,
    (interval_validator 3600 "interval").2.1 ⟨by decide, by decide⟩,
    (interval_validator 29 "interval").2.2.1 (Or.inl (by decide))⟩

/-- A list with a `/` splits at its first `/`. -/
theorem first_slash (l : List Char) (h : '/' ∈ l) :
    ∃ a b, l = a ++ '/' :: b ∧ '/' ∉ a := by
  induction l with
  | nil => cases h
  | cons c cs ih =>
    by_cases hc : c = '/'
    · exact ⟨[], cs, by simp [hc], by simp⟩
    · have hcs : '/' ∈ cs := by
        rcases List.mem_cons.1 h with h1 | h1
        · exact absurd h1.symm hc
        · exact h1
      obtain ⟨a, b, hab, ha⟩ := ih hcs
      refine ⟨c :: a, b, by simp [hab], ?_⟩
      simp only [List.mem_cons, not_or]
      exact ⟨fun e => hc e.symm, ha⟩

theorem string_first_slash (s : String) (h : '/' ∈ s.data) :
    ∃ before after : String, s = before ++ "/" ++ after ∧ '/' ∉ before.data := by
  obtain ⟨a, b, hab, ha⟩ := first_slash s.data h
  refine ⟨⟨a⟩, ⟨b⟩, ?_, ha⟩
  apply String.ext
  simp [String.data_append, hab]

theorem template_import_splits :
    SplitsAtFirstSlash resourceMeInstallationTemplateImportState
      "Import Id is not base_template_name/template_name formatted"
      (fun d base name =>
        ((d.SetId name).Set installationTemplateSchema "base_template_name" (.str base)).Set
          installationTemplateSchema "template_name" (.str name)) := by
  intro d
  constructor
  · intro h
    simp [resourceMeInstallationTemplateImportState, splitN2_no_slash d.Id h]
  · intro h
    obtain ⟨before, after, hid, hb⟩ := string_first_slash d.Id h
    refine ⟨before, after, hid, hb, ?_⟩
    simp [resourceMeInstallationTemplateImportState, hid, splitN2_first_slash before after hb]

theorem farm_import_splits :
    SplitsAtFirstSlash resourceIpLoadbalancingTcpFarmImportState
      "Import Id is not service_name/farm id formatted"
      (fun d service farm => (d.SetId farm).Set tcpFarmSchema "service_name" (.str service)) := by
  intro d
  constructor
  · intro h
    simp [resourceIpLoadbalancingTcpFarmImportState, splitN2_no_slash d.Id h]
  · intro h
    obtain ⟨before, after, hid, hb⟩ := string_first_slash d.Id h
    refine ⟨before, after, hid, hb, ?_⟩
    simp [resourceIpLoadbalancingTcpFarmImportState, hid, splitN2_first_slash before after hb]

theorem frontend_import_splits :
    SplitsAtFirstSlash resourceIpLoadbalancingTcpFrontendImportState
      "Import Id is not service_name/frontend id formatted"
      (fun d service frontend =>
        (d.SetId frontend).Set tcpFrontendSchema "service_name" (.str service)) := by
  intro d
  constructor
  · intro h
    simp [resourceIpLoadbalancingTcpFrontendImportState, splitN2_no_slash d.Id h]
  · intro h
    obtain ⟨before, after, hid, hb⟩ := string_first_slash d.Id h
    refine ⟨before, after, hid, hb, ?_⟩
    simp [resourceIpLoadbalancingTcpFrontendImportState, hid,
      splitN2_first_slash before after hb]

/-- C15: the template importer splits the import ID at its first `/` only. It
fails, leaving the resource data unchanged, exactly when the ID has no `/`;
otherwise the ID is `base ++ "/" ++ name` with no `/` in `base`,
`base_template_name` is set to `base` and both `template_name` and the
resource ID to `name`, the whole remainder. The TCP farm and TCP frontend
importers split `service_name/id` the same way. -/
theorem importers_split_at_first_slash :
    SplitsAtFirstSlash resourceMeInstallationTemplateImportState
      "Import Id is not base_template_name/template_name formatted"
      (fun d base name =>
        ((d.SetId name).Set installationTemplateSchema "base_template_name" (.str base)).Set
          installationTemplateSchema "template_name" (.str name)) ∧
    (∀ (d : ResourceData) (base name : String),
      (((d.SetId name).Set installationTemplateSchema "base_template_name" (.str base)).Set
        installationTemplateSchema "template_name" (.str name)).Id = name ∧
      (((d.SetId name).Set installationTemplateSchema "base_template_name" (.str base)).Set
        installationTemplateSchema "template_name" (.str name)).Get "template_name" =
          some (.str name) ∧
      (((d.SetId name).Set installationTemplateSchema "base_template_name" (.str base)).Set
        installationTemplateSchema "template_name" (.str name)).Get "base_template_name" =
          some (.str base)) ∧
    SplitsAtFirstSlash resourceIpLoadbalancingTcpFarmImportState
      "Import Id is not service_name/farm id formatted"
      (fun d service farm => (d.SetId farm).Set tcpFarmSchema "service_name" (.str service)) ∧
    SplitsAtFirstSlash resourceIpLoadbalancingTcpFrontendImportState
      "Import Id is not service_name/frontend id formatted"
      (fun d service frontend =>
        (d.SetId frontend).Set tcpFrontendSchema "service_name" (.str service)) :=
  ⟨template_import_splits,
    fun _ _ _ => ⟨rfl, get_set_accepted _ _ _ _ rfl,
      by rw [get_set_other _ _ _ _ _ (by decide)]; exact get_set_accepted _ _ _ _ rfl⟩,
    farm_import_splits, frontend_import_splits⟩

theorem importers_split_at_first_slash_witness :
    '/' ∈ (scenarioData.SetId "ubuntu2004/my/tpl").Id.data ∧
    (resourceMeInstallationTemplateImportState (scenarioData.SetId "ubuntu2004/my/tpl")).2.Id
      = "my/tpl" ∧
    ∃ before after, (scenarioData.SetId "ubuntu2004/my/tpl").Id = before ++ "/" ++ after ∧
      '/' ∉ before.data ∧
      resourceMeInstallationTemplateImportState (scenarioData.SetId "ubuntu2004/my/tpl") =
        (.ok [(((scenarioData.SetId "ubuntu2004/my/tpl").SetId after).Set
            installationTemplateSchema "base_template_name" (.str before)).Set
            installationTemplateSchema "template_name" (.str after)],
          (((scenarioData.SetId "ubuntu2004/my/tpl").SetId after).Set
            installationTemplateSchema "base_template_name" (.str before)).Set
            installationTemplateSchema "template_name" (.str after)) :=
  ⟨by decide, by decide,
    (importers_split_at_first_slash.1 (scenarioData.SetId "ubuntu2004/my/tpl")).2 (by decide)⟩

theorem splitN3_no_slash (s : String) (h : '/' ∉ s.data) : splitN3 s = [s] := by
  unfold splitN3
  rw [span_no_slash s.data h]

theorem splitN3_first_slash (a rest : String) (ha : '/' ∉ a.data) :
    splitN3 (a ++ "/" ++ rest) = a :: splitN2 rest := by
  have hd : (a ++ "/" ++ rest).data = a.data ++ '/' :: rest.data := by
    simp [String.data_append]
  unfold splitN3
  rw [hd, span_first_slash a.data rest.data ha]

theorem splitN3_one (a b : String) (ha : '/' ∉ a.data) (hb : '/' ∉ b.data) :
    splitN3 (a ++ "/" ++ b) = [a, b] := by
  rw [splitN3_first_slash a b ha, splitN2_no_slash b hb]

theorem splitN3_two (a b c : String) (ha : '/' ∉ a.data) (hb : '/' ∉ b.data) :
    splitN3 (a ++ "/" ++ b ++ "/" ++ c) = [a, b, c] := by
  have he : a ++ "/" ++ b ++ "/" ++ c = a ++ "/" ++ (b ++ "/" ++ c) := by
    simp [String.append_assoc]
  rw [he, splitN3_first_slash a _ ha, splitN2_first_slash b c hb]

theorem count_slash_first (a b : List Char) (ha : '/' ∉ a) :
    (a ++ '/' :: b).count '/' = b.count '/' + 1 := by
  rw [List.count_append, List.count_eq_zero.2 ha, List.count_cons_self]
  omega

/-- An ID with fewer than two `/` has none, or exactly one. -/
theorem few_slashes (s : String) (h : s.data.count '/' < 2) :
    '/' ∉ s.data ∨
    ∃ a b : String, s = a ++ "/" ++ b ∧ '/' ∉ a.data ∧ '/' ∉ b.data := by
  by_cases hs : '/' ∈ s.data
  · right
    obtain ⟨a, b, hab, ha⟩ := first_slash s.data hs
    have hb : '/' ∉ b := by
      rw [hab, count_slash_first a b ha] at h
      exact List.count_eq_zero.1 (by omega)
    refine ⟨⟨a⟩, ⟨b⟩, ?_, ha, hb⟩
    apply String.ext
    simp [String.data_append, hab]
  · exact Or.inl hs

/-- An ID with two `/` or more splits at its first two `/`. -/
theorem two_slashes (s : String) (h : 2 ≤ s.data.count '/') :
    ∃ a b c : String, s = a ++ "/" ++ b ++ "/" ++ c ∧ '/' ∉ a.data ∧ '/' ∉ b.data := by
  have hs : '/' ∈ s.data := List.count_pos_iff.1 (by omega)
  obtain ⟨a, r, har, ha⟩ := first_slash s.data hs
  have hr : '/' ∈ r := by
    rw [har, count_slash_first a r ha] at h
    exact List.count_pos_iff.1 (by omega)
  obtain ⟨b, c, hbc, hb⟩ := first_slash r hr
  refine ⟨⟨a⟩, ⟨b⟩, ⟨c⟩, ?_, ha, hb⟩
  apply String.ext
  simp [String.data_append, har, hbc]

/-- C16: the HTTP farm-server importer fails, leaving the resource ID and the
state unchanged, exactly when the import ID has fewer than two `/` or the text
between the first and the second `/` is rejected by `strconv.Atoi`. Otherwise
`service_name` is the text before the first `/`, `farm_id` the integer value
of the middle part, and the resource ID the whole remainder after the second
`/`. -/
theorem server_import (quote : String → String) (d : ResourceData) :
    (d.Id.data.count '/' < 2 →
      resourceIpLoadbalancingHttpFarmServerImportState quote d =
        (.error "Import Id is not service_name/farm_id/server id formatted", d)) ∧
    (2 ≤ d.Id.data.count '/' →
      ∃ service farm server : String,
        d.Id = service ++ "/" ++ farm ++ "/" ++ server ∧
        '/' ∉ service.data ∧ '/' ∉ farm.data ∧
        (∀ err, (Atoi farm).2 = some err →
          resourceIpLoadbalancingHttpFarmServerImportState quote d =
            (.error ("Couldn't cast farmId " ++ toString (Atoi farm).1 ++ " to int: "
              ++ err.Error quote farm), d)) ∧
        ((Atoi farm).2 = none →
          resourceIpLoadbalancingHttpFarmServerImportState quote d =
            (.ok [((d.SetId server).Set httpFarmServerSchema "farm_id" (.int (Atoi farm).1)).Set
                httpFarmServerSchema "service_name" (.str service)],
              ((d.SetId server).Set httpFarmServerSchema "farm_id" (.int (Atoi farm).1)).Set
                httpFarmServerSchema "service_name" (.str service)) ∧
          (resourceIpLoadbalancingHttpFarmServerImportState quote d).2.Id = server ∧
          (resourceIpLoadbalancingHttpFarmServerImportState quote d).2.Get "farm_id" =
            some (.int (Atoi farm).1) ∧
          (resourceIpLoadbalancingHttpFarmServerImportState quote d).2.Get "service_name" =
            some (.str service))) := by
  constructor
  · intro h
    rcases few_slashes d.Id h with h0 | ⟨a, b, hab, ha, hb⟩
    · simp [resourceIpLoadbalancingHttpFarmServerImportState, splitN3_no_slash d.Id h0]
    · simp [resourceIpLoadbalancingHttpFarmServerImportState, hab, splitN3_one a b ha hb]
  · intro h
    obtain ⟨a, b, c, habc, ha, hb⟩ := two_slashes d.Id h
    refine ⟨a, b, c, habc, ha, hb, ?_, ?_⟩
    · intro err herr
      have hA : Atoi b = ((Atoi b).1, some err) := Prod.ext rfl herr
      unfold resourceIpLoadbalancingHttpFarmServerImportState
      simp only [habc, splitN3_two a b c ha hb]
      rw [hA]
    · intro hok
      have hA : Atoi b = ((Atoi b).1, none) := Prod.ext rfl hok
      have hrun : resourceIpLoadbalancingHttpFarmServerImportState quote d =
          (.ok [((d.SetId c).Set httpFarmServerSchema "farm_id" (.int (Atoi b).1)).Set
              httpFarmServerSchema "service_name" (.str a)],
            ((d.SetId c).Set httpFarmServerSchema "farm_id" (.int (Atoi b).1)).Set
              httpFarmServerSchema "service_name" (.str a)) := by
        unfold resourceIpLoadbalancingHttpFarmServerImportState
        simp only [habc, splitN3_two a b c ha hb]
        rw [hA]
      rw [hrun]
      refine ⟨rfl, rfl, ?_, ?_⟩
      · dsimp only
        rw [get_set_other _ _ _ _ _ (by decide)]
        exact get_set_accepted _ _ _ _ rfl
      · dsimp only
        exact get_set_accepted _ _ _ _ rfl

theorem server_import_witness :
    2 ≤ serverImportData.Id.data.count '/' ∧
    Atoi "42" = (42, none) ∧ Atoi "+42" = (42, none) ∧ Atoi "-42" = (-42, none) ∧
    (Atoi "").2 = some .ErrSyntax ∧ (Atoi "4x").2 = some .ErrSyntax ∧
    (Atoi "9223372036854775808").2 = some .ErrRange ∧
    (resourceIpLoadbalancingHttpFarmServerImportState id serverImportData).2.Id = "srv/7" ∧
    ∃ service farm server : String,
      serverImportData.Id = service ++ "/" ++ farm ++ "/" ++ server ∧
      '/' ∉ service.data ∧ '/' ∉ farm.data :=
  ⟨by decide, by decide, by decide, by decide, by decide, by decide, by decide, by decide,
    let ⟨service, farm, server, h1, h2, h3, _⟩ :=
      (server_import id serverImportData).2 (by decide)
    ⟨service, farm, server, h1, h2, h3⟩⟩

theorem char_toNat_lt (c : Char) : c.toNat < 0x110000 := by
  have := c.valid
  unfold UInt32.isValidChar Nat.isValidChar at this
  unfold Char.toNat
  omega

theorem char_eq_of_toNat (c1 c2 : Char) (h : c1.toNat = c2.toNat) : c1 = c2 := by
  rw [← Char.ofNat_toNat c1, ← Char.ofNat_toNat c2, h]

theorem utf8Bytes_lt (c : Char) : ∀ b ∈ utf8Bytes c, b < 256 := by
  have hc := char_toNat_lt c
  intro b hb
  unfold utf8Bytes at hb
  simp only at hb
  split at hb
  · simp at hb; omega
  · split at hb
    · simp at hb; omega
    · split at hb
      · simp at hb; omega
      · simp at hb; omega

/-- The four shapes of the encoding of a character. -/
theorem utf8Bytes_cases (c : Char) :
    (c.toNat < 128 ∧ utf8Bytes c = [c.toNat]) ∨
    (128 ≤ c.toNat ∧ c.toNat < 2048 ∧
      utf8Bytes c = [192 + c.toNat / 64, 128 + c.toNat % 64]) ∨
    (2048 ≤ c.toNat ∧ c.toNat < 65536 ∧
      utf8Bytes c = [224 + c.toNat / 4096, 128 + c.toNat / 64 % 64, 128 + c.toNat % 64]) ∨
    (65536 ≤ c.toNat ∧
      utf8Bytes c = [240 + c.toNat / 262144, 128 + c.toNat / 4096 % 64,
        128 + c.toNat / 64 % 64, 128 + c.toNat % 64]) := by
  unfold utf8Bytes
  simp only
  by_cases h1 : c.toNat < 128
  · left; simp [h1]
  · by_cases h2 : c.toNat < 2048
    · right; left; simp [h1, h2]; omega
    · by_cases h3 : c.toNat < 65536
      · right; right; left; simp [h1, h2, h3]; omega
      · right; right; right; simp [h1, h2, h3]; omega

/-- UTF-8 is a prefix code: the encoding of a character followed by more
bytes is read back in one way only. -/
theorem utf8Bytes_prefix (c1 c2 : Char) (r1 r2 : List Nat)
    (h : utf8Bytes c1 ++ r1 = utf8Bytes c2 ++ r2) : c1 = c2 ∧ r1 = r2 := by
  have h1 := char_toNat_lt c1
  have h2 := char_toNat_lt c2
  have key : c1.toNat = c2.toNat ∧ r1 = r2 := by
    rcases utf8Bytes_cases c1 with ⟨a1, e1⟩ | ⟨a1, b1, e1⟩ | ⟨a1, b1, e1⟩ | ⟨a1, e1⟩ <;>
    rcases utf8Bytes_cases c2 with ⟨a2, e2⟩ | ⟨a2, b2, e2⟩ | ⟨a2, b2, e2⟩ | ⟨a2, e2⟩ <;>
    rw [e1, e2] at h <;>
    simp only [List.cons_append, List.nil_append, List.cons.injEq] at h <;>
    first
    | (exfalso; omega)
    | (refine ⟨?_, ?_⟩
       · omega
       · tauto)
  exact ⟨char_eq_of_toNat c1 c2 key.1, key.2⟩

theorem flatMap_utf8Bytes_injective (l1 l2 : List Char)
    (h : l1.flatMap utf8Bytes = l2.flatMap utf8Bytes) : l1 = l2 := by
  induction l1 generalizing l2 with
  | nil =>
    cases l2 with
    | nil => rfl
    | cons c cs =>
      exfalso
      simp only [List.flatMap_nil, List.flatMap_cons] at h
      rcases utf8Bytes_cases c with ⟨_, e⟩ | ⟨_, _, e⟩ | ⟨_, _, e⟩ | ⟨_, e⟩ <;>
        rw [e] at h <;> simp at h
  | cons c cs ih =>
    cases l2 with
    | nil =>
      exfalso
      simp only [List.flatMap_nil, List.flatMap_cons] at h
      rcases utf8Bytes_cases c with ⟨_, e⟩ | ⟨_, _, e⟩ | ⟨_, _, e⟩ | ⟨_, e⟩ <;>
        rw [e] at h <;> simp at h
    | cons c2 cs2 =>
      simp only [List.flatMap_cons] at h
      obtain ⟨hc, hr⟩ := utf8Bytes_prefix c c2 _ _ h
      rw [hc, ih cs2 hr]

theorem upperhex_injective (a b : Nat) (ha : a < 16) (hb : b < 16)
    (h : upperhex a = upperhex b) : a = b := by
  interval_cases a <;> interval_cases b <;> first | rfl | (exfalso; revert h; decide)

theorem toNat_ofNat_ascii (b : Nat) (h : b ≤ 126) : (Char.ofNat b).toNat = b := by
  interval_cases b <;> rfl

theorem shouldEscape_percent (b : Nat) (h : shouldEscape b = false) : Char.ofNat b ≠ '%' := by
  obtain ⟨h1, _⟩ := shouldEscape_false_bound b h
  intro e
  have h2 : (Char.ofNat b).toNat = 37 := by rw [e]; rfl
  rw [toNat_ofNat_ascii b h1] at h2
  subst h2
  revert h
  decide

/-- The escaping is a prefix code on bytes. -/
theorem escapeByte_prefix (b1 b2 : Nat) (r1 r2 : List Char) (h1 : b1 < 256) (h2 : b2 < 256)
    (h : escapeByte b1 ++ r1 = escapeByte b2 ++ r2) : b1 = b2 ∧ r1 = r2 := by
  unfold escapeByte at h
  cases e1 : shouldEscape b1 <;> cases e2 : shouldEscape b2 <;>
    simp only [e1, e2, Bool.false_eq_true, if_true, if_false, List.cons_append,
      List.nil_append, List.cons.injEq] at h
  · obtain ⟨hc, hr⟩ := h
    have hn := congrArg Char.toNat hc
    rw [toNat_ofNat_ascii b1 (shouldEscape_false_bound b1 e1).1,
      toNat_ofNat_ascii b2 (shouldEscape_false_bound b2 e2).1] at hn
    exact ⟨hn, hr⟩
  · exact absurd h.1 (shouldEscape_percent b1 e1)
  · exact absurd h.1.symm (shouldEscape_percent b2 e2)
  · obtain ⟨_, hhi, hlo, hr⟩ := h
    have a := upperhex_injective _ _ (by omega) (by omega) hhi
    have b := upperhex_injective _ _ (Nat.mod_lt _ (by decide)) (Nat.mod_lt _ (by decide)) hlo
    exact ⟨by omega, hr⟩

theorem escapeByte_ne_nil (b : Nat) : escapeByte b ≠ [] := by
  unfold escapeByte
  split <;> simp

theorem flatMap_escapeByte_injective (l1 l2 : List Nat) (h1 : ∀ b ∈ l1, b < 256)
    (h2 : ∀ b ∈ l2, b < 256) (h : l1.flatMap escapeByte = l2.flatMap escapeByte) :
    l1 = l2 := by
  induction l1 generalizing l2 with
  | nil =>
    cases l2 with
    | nil => rfl
    | cons b bs =>
      exfalso
      simp only [List.flatMap_nil, List.flatMap_cons] at h
      exact escapeByte_ne_nil b (List.append_eq_nil.1 h.symm).1
  | cons b bs ih =>
    cases l2 with
    | nil =>
      exfalso
      simp only [List.flatMap_nil, List.flatMap_cons] at h
      exact escapeByte_ne_nil b (List.append_eq_nil.1 h).1
    | cons b2 bs2 =>
      simp only [List.flatMap_cons] at h
      obtain ⟨hb, hr⟩ := escapeByte_prefix b b2 _ _ (h1 b (by simp)) (h2 b2 (by simp)) h
      rw [hb, ih bs2 (fun x hx => h1 x (List.mem_cons_of_mem _ hx))
        (fun x hx => h2 x (List.mem_cons_of_mem _ hx)) hr]

/-- `url.PathEscape` is injective. -/
theorem PathEscape_injective (s1 s2 : String) (h : PathEscape s1 = PathEscape s2) : s1 = s2 := by
  have hd : (s1.data.flatMap utf8Bytes).flatMap escapeByte =
      (s2.data.flatMap utf8Bytes).flatMap escapeByte := by
    simpa [PathEscape] using congrArg String.data h
  have hb : ∀ s : String, ∀ b ∈ s.data.flatMap utf8Bytes, b < 256 := by
    intro s b hmem
    obtain ⟨c, _, hc⟩ := List.mem_flatMap.1 hmem
    exact utf8Bytes_lt c b hc
  exact String.ext (flatMap_utf8Bytes_injective _ _
    (flatMap_escapeByte_injective _ _ (hb s1) (hb s2) hd))

theorem partitionSchemeEndpoint_data (t s : String) :
    (partitionSchemeEndpoint t s).data =
      "/me/installationTemplate/".data ++
        ((PathEscape t).data ++ '/' :: ("partitionScheme/".data ++ (PathEscape s).data)) := by
  simp [partitionSchemeEndpoint, String.data_append]

theorem partitionSchemeEndpoint_injective (t s t2 s2 : String)
    (h : partitionSchemeEndpoint t s = partitionSchemeEndpoint t2 s2) : t = t2 ∧ s = s2 := by
  have hd := congrArg String.data h
  rw [partitionSchemeEndpoint_data, partitionSchemeEndpoint_data] at hd
  have h1 := List.append_cancel_left hd
  have h2 := congrArg (List.span (fun c => c != '/')) h1
  rw [span_first_slash _ _ (PathEscape_no_slash t),
    span_first_slash _ _ (PathEscape_no_slash t2)] at h2
  simp only [Prod.mk.injEq, List.cons.injEq, true_and] at h2
  obtain ⟨ht, hs⟩ := h2
  have hs2 := List.append_cancel_left hs
  exact ⟨PathEscape_injective t t2 (String.ext ht), PathEscape_injective s s2 (String.ext hs2)⟩

/-- C13: for all names `t` and `s`, whatever characters they hold, the
partition-scheme endpoint is `/me/installationTemplate/` ++ PathEscape(t) ++
`/partitionScheme/` ++ PathEscape(s); it has exactly five `/`, none of them
from `t` or `s`; and two different pairs never yield the same path. -/
theorem scheme_endpoint_escaped (t s t2 s2 : String) :
    partitionSchemeEndpoint t s =
      "/me/installationTemplate/" ++ PathEscape t ++ "/partitionScheme/" ++ PathEscape s ∧
    (partitionSchemeEndpoint t s).data.count '/' = 5 ∧
    '/' ∉ (PathEscape t).data ∧ '/' ∉ (PathEscape s).data ∧
    pathSegments (partitionSchemeEndpoint t s) =
      ["", "me", "installationTemplate", PathEscape t, "partitionScheme", PathEscape s] ∧
    (partitionSchemeEndpoint t s = partitionSchemeEndpoint t2 s2 → t = t2 ∧ s = s2) := by
  refine ⟨rfl, ?_, PathEscape_no_slash t, PathEscape_no_slash s,
    pathSegments_partitionSchemeEndpoint t s, partitionSchemeEndpoint_injective t s t2 s2⟩
  rw [partitionSchemeEndpoint_data]
  simp only [List.count_append, List.count_cons_self,
    List.count_eq_zero.2 (PathEscape_no_slash t), List.count_eq_zero.2 (PathEscape_no_slash s)]
  decide

theorem scheme_endpoint_escaped_witness :
    partitionSchemeEndpoint "a/b" "c?d#e%f" =
      "/me/installationTemplate/a%2Fb/partitionScheme/c%3Fd%23e%25f" ∧
    partitionSchemeEndpoint "a/b" "c" = partitionSchemeEndpoint "a/b" "c" ∧
    partitionSchemeEndpoint "a" "b/c" ≠ partitionSchemeEndpoint "a/b" "c" ∧
    ("a/b" = "a/b" ∧ "c" = "c") :=
  ⟨by decide, rfl, by decide, (scheme_endpoint_escaped "a/b" "c" "a/b" "c").2.2.2.2.2 rfl⟩

theorem validateEach_eq_none (validate : String → Option String) (errorPrefix : String)
    (l : List String) :
    validateEach validate errorPrefix l = none ↔ ∀ s ∈ l, validate s = none := by
  induction l with
  | nil => simp [validateEach]
  | cons s rest ih =>
    cases hs : validate s with
    | none => simp [validateEach, hs, ih]
    | some err => simp [validateEach, hs]

theorem ipBlocksValid_iff (h : Helpers) (d : ResourceData) :
    IpBlocksValid h d ↔
      validateEach h.validateIpBlock "Error validating `allowed_source` value: "
        (h.stringsFromSchema d "allowed_source") = none ∧
      validateEach h.validateIpBlock "Error validating `dedicated_ipfo` value: "
        (h.stringsFromSchema d "dedicated_ipfo") = none := by
  rw [validateEach_eq_none, validateEach_eq_none]
  unfold IpBlocksValid
  constructor
  · intro hv
    exact ⟨fun s hs => hv s (List.mem_append_left _ hs),
      fun s hs => hv s (List.mem_append_right _ hs)⟩
  · rintro ⟨h1, h2⟩ s hs
    rcases List.mem_append.1 hs with hm | hm
    · exact h1 s hm
    · exact h2 s hm

/-- C12: in Create and in Update of the TCP frontend, when `validateIpBlock`
rejects an element of `allowed_source` or of `dedicated_ipfo` the operation
returns an error and the log of client calls is unchanged: no POST, no PUT.
When every element of both lists passes, the operation issues exactly one
call, the POST of Create or the PUT of Update; so a call is issued only
then. -/
theorem frontend_validation_before_calls (h : Helpers)
    (client : ApiClient IpLoadbalancingTcpFrontend) (d : ResourceData)
    (log : List (ApiEvent IpLoadbalancingTcpFrontend)) :
    (¬ IpBlocksValid h d →
      (resourceIpLoadbalancingTcpFrontendCreate h client d log).1 ≠ none ∧
      (resourceIpLoadbalancingTcpFrontendCreate h client d log).2.2 = log ∧
      (resourceIpLoadbalancingTcpFrontendUpdate h client d log).1 ≠ none ∧
      (resourceIpLoadbalancingTcpFrontendUpdate h client d log).2.2 = log) ∧
    (IpBlocksValid h d →
      (((resourceIpLoadbalancingTcpFrontendCreate h client d log).2.2.drop log.length).map
        ApiEvent.line =
          [(.POST, "/ipLoadbalancing/" ++ asString (d.Get "service_name") ++ "/tcp/frontend")]) ∧
      (((resourceIpLoadbalancingTcpFrontendUpdate h client d log).2.2.drop log.length).map
        ApiEvent.line =
          [(.PUT, "/ipLoadbalancing/" ++ asString (d.Get "service_name") ++ "/tcp/frontend/"
            ++ d.Id)])) ∧
    ((resourceIpLoadbalancingTcpFrontendCreate h client d log).2.2 ≠ log → IpBlocksValid h d) ∧
    ((resourceIpLoadbalancingTcpFrontendUpdate h client d log).2.2 ≠ log → IpBlocksValid h d) := by
  have hbad : ¬ IpBlocksValid h d →
      (resourceIpLoadbalancingTcpFrontendCreate h client d log).1 ≠ none ∧
      (resourceIpLoadbalancingTcpFrontendCreate h client d log).2.2 = log ∧
      (resourceIpLoadbalancingTcpFrontendUpdate h client d log).1 ≠ none ∧
      (resourceIpLoadbalancingTcpFrontendUpdate h client d log).2.2 = log := by
    intro hv
    rw [ipBlocksValid_iff] at hv
    unfold resourceIpLoadbalancingTcpFrontendCreate resourceIpLoadbalancingTcpFrontendUpdate
    cases h1 : validateEach h.validateIpBlock "Error validating `allowed_source` value: "
        (h.stringsFromSchema d "allowed_source") with
    | some err => simp [h1]
    | none =>
      cases h2 : validateEach h.validateIpBlock "Error validating `dedicated_ipfo` value: "
          (h.stringsFromSchema d "dedicated_ipfo") with
      | some err => simp [h1, h2]
      | none => exact absurd ⟨h1, h2⟩ hv
  refine ⟨hbad, ?_, ?_, ?_⟩
  · intro hv
    obtain ⟨h1, h2⟩ := (ipBlocksValid_iff h d).1 hv
    constructor
    · unfold resourceIpLoadbalancingTcpFrontendCreate
      simp only [h1, h2, ApiClient.Post]
      cases client.Fetch log ⟨.POST,
        "/ipLoadbalancing/" ++ asString (d.Get "service_name") ++ "/tcp/frontend",
        some (frontendFromData h d (h.stringsFromSchema d "allowed_source")
          (h.stringsFromSchema d "dedicated_ipfo"))⟩ <;>
        simp [ApiEvent.line]
    · unfold resourceIpLoadbalancingTcpFrontendUpdate
      simp only [h1, h2, ApiClient.Put]
      cases client.Send log ⟨.PUT,
        "/ipLoadbalancing/" ++ asString (d.Get "service_name") ++ "/tcp/frontend/" ++ d.Id,
        some (frontendFromData h d (h.stringsFromSchema d "allowed_source")
          (h.stringsFromSchema d "dedicated_ipfo"))⟩ <;>
        simp [ApiEvent.line]
  · intro hne
    by_contra hv
    exact hne (hbad hv).2.1
  · intro hne
    by_contra hv
    exact hne (hbad hv).2.2.2

theorem frontend_validation_before_calls_witness :
    ¬ IpBlocksValid sampleHelpers badFrontendData ∧
    (resourceIpLoadbalancingTcpFrontendCreate sampleHelpers frontendClient badFrontendData
      []).2.2 = [] ∧
    (resourceIpLoadbalancingTcpFrontendCreate sampleHelpers frontendClient badFrontendData []).1
      = some "Error validating `allowed_source` value: not an ip is not a valid ipnet" ∧
    IpBlocksValid sampleHelpers goodFrontendData ∧
    ((resourceIpLoadbalancingTcpFrontendCreate sampleHelpers frontendClient goodFrontendData
      []).2.2.drop ([] : List (ApiEvent IpLoadbalancingTcpFrontend)).length).map ApiEvent.line =
      [(.POST, "/ipLoadbalancing/" ++ asString (goodFrontendData.Get "service_name")
        ++ "/tcp/frontend")] :=
  have hbad : ¬ IpBlocksValid sampleHelpers badFrontendData := fun hv =>
    absurd (hv "not an ip" (by decide)) (by decide)
  have hgood : IpBlocksValid sampleHelpers goodFrontendData := by
    unfold IpBlocksValid
    decide
  ⟨hbad,
    ((frontend_validation_before_calls sampleHelpers frontendClient badFrontendData []).1
      hbad).2.1,
    by decide, hgood,
    ((frontend_validation_before_calls sampleHelpers frontendClient goodFrontendData []).2.1
      hgood).1⟩

/-- After a Read of the TCP farm that completes, five fields hold the values
of the response; the response's stickiness is handed to the key `stickinesss`,
which the schema does not declare, so nothing is written for it and the field
`stickiness` keeps the value it had. -/
theorem tcp_farm_read_fields (client : ApiClient IpLoadbalancingTcpFarm) (d : ResourceData)
    (log : List (ApiEvent IpLoadbalancingTcpFarm)) (r : IpLoadbalancingTcpFarm)
    (p : IpLoadbalancingTcpFarmBackendProbe)
    (hget : client.Fetch log ⟨.GET,
      "/ipLoadbalancing/" ++ asString (d.Get "service_name") ++ "/tcp/farm/" ++ d.Id, none⟩
      = .ok r)
    (hp : r.Probe = some p) :
    ∃ d2 log2, resourceIpLoadbalancingTcpFarmRead client d log = .done (none, d2, log2) ∧
      d2.Get "display_name" = some (.str r.DisplayName) ∧
      d2.Get "zone" = some (.str r.Zone) ∧
      d2.Get "port" = some (.int r.Port) ∧
      d2.Get "balance" = some (.str r.Balance) ∧
      d2.Get "vrack_network_id" = some (.int r.VrackNetworkId) ∧
      d2.Get "stickinesss" = d.Get "stickinesss" ∧
      d2.Get "stickiness" = d.Get "stickiness" := by
  simp only [resourceIpLoadbalancingTcpFarmRead, ApiClient.Get, hget, hp, deref, Run.bind]
  refine ⟨_, _, rfl, ?_⟩
  have a1 : tcpFarmSchema.accepts "display_name" (.str r.DisplayName) = true := rfl
  have a2 : tcpFarmSchema.accepts "zone" (.str r.Zone) = true := rfl
  have a3 : tcpFarmSchema.accepts "port" (.int r.Port) = true := rfl
  have a4 : tcpFarmSchema.accepts "balance" (.str r.Balance) = true := rfl
  have a5 : tcpFarmSchema.accepts "probe" (.blocks [[("match", .str p.Match),
      ("port", .int p.Port), ("interval", .int p.Interval), ("negate", .bool p.Negate),
      ("pattern", .str p.Pattern), ("force_ssl", .bool p.ForceSsl), ("url", .str p.URL),
      ("method", .str p.Method), ("type", .str p.Type_)]]) = true := rfl
  have a6 : tcpFarmSchema.accepts "vrack_network_id" (.int r.VrackNetworkId) = true := rfl
  have a7 : tcpFarmSchema.accepts "stickinesss" (.str r.Stickiness) = false := rfl
  simp [ResourceData.Get, ResourceData.Set, a1, a2, a3, a4, a5, a6, a7]

/-- C14, the code at the failing input: Read of the farm `lb-1/42` on a
service that describes it with the stickiness `sourceIp` completes without
error and sets `display_name`, `zone`, `port`, `balance` and
`vrack_network_id` from the response, but the state field `stickiness` is
still unset: the value was handed to the key `stickinesss`, which the schema
does not declare, and was written nowhere. -/
theorem tcp_farm_read_drops_stickiness :
    farmResponse.Stickiness = "sourceIp" ∧
    ∃ d2 log2, resourceIpLoadbalancingTcpFarmRead farmClient farmData [] =
        .done (none, d2, log2) ∧
      d2.Get "display_name" = some (.str farmResponse.DisplayName) ∧
      d2.Get "zone" = some (.str farmResponse.Zone) ∧
      d2.Get "port" = some (.int farmResponse.Port) ∧
      d2.Get "balance" = some (.str farmResponse.Balance) ∧
      d2.Get "vrack_network_id" = some (.int farmResponse.VrackNetworkId) ∧
      d2.Get "stickiness" = none ∧
      d2.Get "stickinesss" = none :=
  ⟨rfl, _, _, rfl, by decide, by decide, by decide, by decide, by decide, by decide, by decide⟩

/-- Read of the farm server completes exactly when the response holds
`probe`, `ssl`, `backup` and `weight`; it panics otherwise, and the five
guarded fields play no role. -/
theorem server_read_completes_iff (fmt : Fmt)
    (client : ApiClient IpLoadbalancingHttpFarmServer) (d : ResourceData)
    (log : List (ApiEvent IpLoadbalancingHttpFarmServer)) (r : IpLoadbalancingHttpFarmServer)
    (hget : client.Fetch log ⟨.GET,
      "/ipLoadbalancing/" ++ asString (d.Get "service_name") ++ "/http/farm/"
        ++ toString (asInt (d.Get "farm_id")) ++ "/server/" ++ d.Id, none⟩ = .ok r) :
    ((resourceIpLoadbalancingHttpFarmServerRead fmt client d log).succeeded = true ↔
      r.Probe.isSome = true ∧ r.Ssl.isSome = true ∧ r.Backup.isSome = true ∧
        r.Weight.isSome = true) ∧
    ((resourceIpLoadbalancingHttpFarmServerRead fmt client d log).isPanic = true ↔
      ¬ (r.Probe.isSome = true ∧ r.Ssl.isSome = true ∧ r.Backup.isSome = true ∧
        r.Weight.isSome = true)) := by
  simp only [resourceIpLoadbalancingHttpFarmServerRead, ApiClient.Get, hget]
  cases r.Probe <;> cases r.Ssl <;> cases r.Backup <;> cases r.Weight <;>
    simp [deref, Run.bind, Run.succeeded, Run.isPanic]

/-- C18, the code at the failing input: the GET succeeds and decodes a
response without `probe`, and Read panics on the dereference of `r.Probe`
instead of returning. -/
theorem server_read_panics_without_probe :
    bareServerClient.Fetch [] ⟨.GET, "/ipLoadbalancing/lb-1/http/farm/42/server/7", none⟩ =
      .ok bareServerResponse ∧
    bareServerResponse.Probe = none ∧
    resourceIpLoadbalancingHttpFarmServerRead scenarioFmt bareServerClient serverData [] =
      .panicked "invalid memory address or nil pointer dereference: r.Probe" :=
  ⟨rfl, rfl, by rfl⟩

end Ovh
